import Mathlib

/-!
Verification of the supervisor core of pgpool-II (src/main/pgpool_main.c) via a
shallow embedding.  The data model and the operations are translated from the C
source; a few macros and constants that live in shared headers outside the
sources at hand are reconstructed from the specification and marked as such in
their doc comments.
-/

namespace PgpoolMain

/-- Backend status, the CON_ values of the shared headers.  Modelled from the spec:
status is one of UNUSED, CONNECT_WAIT, UP, DOWN. -/
inductive BackendStatus where
  | CON_UNUSED
  | CON_CONNECT_WAIT
  | CON_UP
  | CON_DOWN
deriving DecidableEq, Repr, Inhabited

export BackendStatus (CON_UNUSED CON_CONNECT_WAIT CON_UP CON_DOWN)

/-- Backend role.  Modelled from the spec: role is PRIMARY, STANDBY or UNKNOWN. -/
inductive Role where
  | ROLE_PRIMARY
  | ROLE_STANDBY
  | ROLE_UNKNOWN
deriving DecidableEq, Repr, Inhabited

export Role (ROLE_PRIMARY ROLE_STANDBY ROLE_UNKNOWN)

/-- Clustering mode.  Modelled from the spec: the macros STREAM, SL_MODE and
RAW_MODE of the shared headers discriminate on the configured clustering mode. -/
inductive ClusteringMode where
  | raw
  | stream
  | logical
  | native_replication
  | snapshot_isolation
deriving DecidableEq, Repr, Inhabited

/-- Request kinds (POOL_REQUEST_KIND in the shared headers, used throughout
pgpool_main.c). -/
inductive POOL_REQUEST_KIND where
  | NODE_UP_REQUEST
  | NODE_DOWN_REQUEST
  | NODE_QUARANTINE_REQUEST
  | CLOSE_IDLE_REQUEST
  | PROMOTE_NODE_REQUEST
deriving DecidableEq, Repr, Inhabited

export POOL_REQUEST_KIND (NODE_UP_REQUEST NODE_DOWN_REQUEST NODE_QUARANTINE_REQUEST
  CLOSE_IDLE_REQUEST PROMOTE_NODE_REQUEST)

/-- The REQ_DETAIL flag bits carried by a request (request_details in the C code). -/
structure RequestDetails where
  switchover : Bool
  confirmed : Bool
  update : Bool
  watchdog : Bool
deriving DecidableEq, Repr, Inhabited

/-- A node state change request as stored in the request queue. -/
structure NodeStateRequest where
  kind : POOL_REQUEST_KIND
  node_id_set : List Int
  request_details : RequestDetails
deriving DecidableEq, Repr, Inhabited

/-- One backend descriptor (the fields of BackendInfo written by pgpool_main.c). -/
structure BackendInfo where
  backend_status : BackendStatus
  quarantine : Bool
  role : Role
deriving DecidableEq, Repr, Inhabited

/-- The shared state that pgpool_main.c mutates: the backend descriptor table and
the Req_info fields main_node_id and primary_node_id. -/
structure PoolState where
  backends : List BackendInfo
  main_node_id : Int
  primary_node_id : Int
deriving DecidableEq, Repr, Inhabited

/-- The configuration fields consulted by the embedded code paths.
follow_primary_command abstracts the C string to whether it is nonempty. -/
structure PoolConfig where
  mode : ClusteringMode
  detach_false_primary : Bool
  follow_primary_command : Bool
deriving DecidableEq, Repr, Inhabited

/-- NUM_BACKENDS for a state: the number of configured backends. -/
def PoolState.numBackends (st : PoolState) : Nat := st.backends.length

/-- BACKEND_INFO(i): read one backend descriptor; out of range reads give the
default descriptor (the C code always guards its indices). -/
def PoolState.getB (st : PoolState) (i : Int) : BackendInfo :=
  if 0 ≤ i then st.backends.getD i.toNat default else default

/-- Write one field of backend i, leaving the rest of the state alone. -/
def PoolState.setB (st : PoolState) (i : Int) (f : BackendInfo → BackendInfo) : PoolState :=
  if 0 ≤ i then
    { st with backends := st.backends.set i.toNat (f (st.getB i)) }
  else st

/-- BACKEND_INFO(i).backend_status = s -/
def PoolState.setStatus (st : PoolState) (i : Int) (s : BackendStatus) : PoolState :=
  st.setB i (fun b => { b with backend_status := s })

/-- BACKEND_INFO(i).quarantine = q -/
def PoolState.setQuarantine (st : PoolState) (i : Int) (q : Bool) : PoolState :=
  st.setB i (fun b => { b with quarantine := q })

/-- BACKEND_INFO(i).role = r -/
def PoolState.setRole (st : PoolState) (i : Int) (r : Role) : PoolState :=
  st.setB i (fun b => { b with role := r })

/-- Modelled from the spec: MAX_NUM_BACKENDS, the fixed cap on the number of
backends, defined in a shared header that is not under the sources at hand. -/
def MAX_NUM_BACKENDS : Int := 128

/-- Modelled from the spec: the VALID_BACKEND macro of the shared headers.  The
spec (section 3) makes a backend addressable exactly when its status is
CONNECT_WAIT or UP and its quarantine flag is clear. -/
def VALID_BACKEND (st : PoolState) (i : Int) : Bool :=
  decide (((st.getB i).backend_status = CON_UP ∨
           (st.getB i).backend_status = CON_CONNECT_WAIT) ∧
          (st.getB i).quarantine = false)

/-- Modelled from the spec: the VALID_BACKEND_RAW macro of the shared headers,
which checks only the raw backend status. -/
def VALID_BACKEND_RAW (st : PoolState) (i : Int) : Bool :=
  decide ((st.getB i).backend_status = CON_UP ∨
          (st.getB i).backend_status = CON_CONNECT_WAIT)

/-- STREAM: the configured mode is streaming replication. -/
abbrev STREAM (cfg : PoolConfig) : Prop := cfg.mode = ClusteringMode.stream

/-- SL_MODE: streaming or logical replication. -/
abbrev SL_MODE (cfg : PoolConfig) : Prop :=
  cfg.mode = ClusteringMode.stream ∨ cfg.mode = ClusteringMode.logical

/-- RAW_MODE: raw mode. -/
abbrev RAW_MODE (cfg : PoolConfig) : Prop := cfg.mode = ClusteringMode.raw

/-- check_all_backend_down (pgpool_main.c lines 1393-1411): true when every
backend status is DOWN or UNUSED. -/
def check_all_backend_down (st : PoolState) : Bool :=
  st.backends.all (fun b =>
    b.backend_status == CON_DOWN || b.backend_status == CON_UNUSED)

/-- get_next_main_node (pgpool_main.c lines 1252-1281): the lowest backend id that
is currently valid, or -1 when none is. -/
def get_next_main_node (cfg : PoolConfig) (st : PoolState) : Int :=
  match (List.range st.backends.length).find? (fun i =>
      if RAW_MODE cfg then VALID_BACKEND_RAW st (Int.ofNat i)
      else VALID_BACKEND st (Int.ofNat i)) with
  | some i => Int.ofNat i
  | none => -1

/-- Modelled from the spec: the PRIMARY_NODE_ID macro of the shared headers: the
primary node id when it is in range, otherwise the main node id. -/
def PRIMARY_NODE_ID (st : PoolState) : Int :=
  if 0 ≤ st.primary_node_id ∧ st.primary_node_id < (st.backends.length : Int)
  then st.primary_node_id else st.main_node_id

/-! ## The request queue (Req_info.request_queue_head / _tail / request / switching) -/

/-- The Req_info fields that implement the bounded request queue and the
switching flag.  head and tail are the monotonically increasing C counters; the
ring slot of counter value c is c mod Q. -/
structure RequestQueue where
  request_queue_head : Int
  request_queue_tail : Int
  request : Int → NodeStateRequest
  switching : Bool

/-- What the producer does after the enqueue of register_node_operation_request
(pgpool_main.c lines 595-601). -/
inductive PostEnqueueAction where
  | runFailover
  | signalFailoverInterrupt
  | noAction
deriving DecidableEq, Repr, Inhabited

/-- register_node_operation_request (pgpool_main.c lines 559-604) for queue
capacity Q: reject when the queue is full (tail - Q == head), otherwise append
at slot (tail+1) mod Q; then, reading switching under the same lock, the caller
either runs failover itself (supervisor and not switching), signals the
supervisor (not supervisor and not switching), or does nothing (switching). -/
def register_node_operation_request (Q : Int) (isMainProcess : Bool)
    (q : RequestQueue) (kind : POOL_REQUEST_KIND) (node_id_set : List Int)
    (flags : RequestDetails) : Bool × RequestQueue × PostEnqueueAction :=
  if q.request_queue_tail - Q = q.request_queue_head then
    (false, q, PostEnqueueAction.noAction)
  else
    let tl := q.request_queue_tail + 1
    let q2 : RequestQueue :=
      { q with request_queue_tail := tl,
               request := fun i => if i = tl % Q then ⟨kind, node_id_set, flags⟩ else q.request i }
    let failover_in_progress := q.switching
    let action :=
      if failover_in_progress = false then
        (if isMainProcess then PostEnqueueAction.runFailover
         else PostEnqueueAction.signalFailoverInterrupt)
      else PostEnqueueAction.noAction
    (true, q2, action)

/-- Entry of failover() (pgpool_main.c lines 1475-1476): the switching flag is
raised before the drain loop starts. -/
def failover_entry (q : RequestQueue) : RequestQueue := { q with switching := true }

/-- The two kinds of events that touch the queue counters while the supervisor
drains: a producer enqueue, and one iteration of the drain loop of failover()
(pgpool_main.c lines 1477-1504: on empty the loop clears switching and exits,
otherwise it advances head and processes the copied request). -/
inductive QueueEvent where
  | enq (r : NodeStateRequest)
  | deq
deriving Inhabited

/-- One event applied to the queue state.  The enq case is the queue mutation of
register_node_operation_request; the deq case is the head of the drain loop. -/
def queue_step (Q : Int) (st : RequestQueue) : QueueEvent → RequestQueue
  | QueueEvent.enq r =>
      if st.request_queue_tail - Q = st.request_queue_head then st
      else
        { st with request_queue_tail := st.request_queue_tail + 1,
                  request := fun i =>
                    if i = (st.request_queue_tail + 1) % Q then r else st.request i }
  | QueueEvent.deq =>
      if st.request_queue_head = st.request_queue_tail then { st with switching := false }
      else { st with request_queue_head := st.request_queue_head + 1 }

/-- Run a list of queue events. -/
def queue_run (Q : Int) : RequestQueue → List QueueEvent → RequestQueue
  | st, [] => st
  | st, e :: evs => queue_run Q (queue_step Q st e) evs

/-- The queue positions (counter values) consumed by the drain iterations of a
run, in processing order. -/
def deq_positions (Q : Int) : RequestQueue → List QueueEvent → List Int
  | _, [] => []
  | st, QueueEvent.enq r :: evs => deq_positions Q (queue_step Q st (QueueEvent.enq r)) evs
  | st, QueueEvent.deq :: evs =>
      if st.request_queue_head = st.request_queue_tail then
        deq_positions Q (queue_step Q st QueueEvent.deq) evs
      else
        (st.request_queue_head + 1) :: deq_positions Q (queue_step Q st QueueEvent.deq) evs

/-- The queue positions (counter values) filled by the successful enqueues of a
run, in order. -/
def enq_positions (Q : Int) : RequestQueue → List QueueEvent → List Int
  | _, [] => []
  | st, QueueEvent.enq r :: evs =>
      if st.request_queue_tail - Q = st.request_queue_head then
        enq_positions Q (queue_step Q st (QueueEvent.enq r)) evs
      else
        (st.request_queue_tail + 1) :: enq_positions Q (queue_step Q st (QueueEvent.enq r)) evs
  | st, QueueEvent.deq :: evs => enq_positions Q (queue_step Q st QueueEvent.deq) evs

/-! ## The follow primary lock (pgpool_main.c lines 4448-4596) -/

/-- The Req_info fields implementing the follow primary lock. -/
structure FollowPrimaryLock where
  follow_primary_count : Int
  follow_primary_lock_held_remotely : Bool
  follow_primary_lock_pending : Bool
deriving DecidableEq, Repr, Inhabited

/-- Outcome of one pass of the acquire loop: the C function either returns a
boolean, or sleeps and retries (the local blocking case). -/
inductive AcquireOutcome where
  | returns (granted : Bool) (l : FollowPrimaryLock)
  | blocked
deriving DecidableEq, Repr, Inhabited

/-- pool_acquire_follow_primary_lock (pgpool_main.c lines 4448-4519), one pass of
its retry loop: a free lock is taken (held_remotely records whether the taker is
remote); a held lock refuses a remote request immediately, setting the pending
flag unless the lock is already remotely held; a held lock refuses a
non-blocking local request; a blocking local request sleeps and retries. -/
def pool_acquire_follow_primary_lock (block remote_request : Bool)
    (l : FollowPrimaryLock) : AcquireOutcome :=
  if l.follow_primary_count ≤ 0 then
    AcquireOutcome.returns true
      { follow_primary_count := 1,
        follow_primary_lock_held_remotely := remote_request,
        follow_primary_lock_pending := l.follow_primary_lock_pending }
  else if remote_request then
    if l.follow_primary_lock_held_remotely then AcquireOutcome.returns false l
    else AcquireOutcome.returns false { l with follow_primary_lock_pending := true }
  else if block = false then AcquireOutcome.returns false l
  else AcquireOutcome.blocked

/-- pool_release_follow_primary_lock (pgpool_main.c lines 4524-4596). -/
def pool_release_follow_primary_lock (remote_request : Bool)
    (l : FollowPrimaryLock) : FollowPrimaryLock :=
  if remote_request then
    let l2 :=
      if l.follow_primary_lock_held_remotely then
        { l with follow_primary_count := 0, follow_primary_lock_held_remotely := false }
      else l
    { l2 with follow_primary_lock_pending := false }
  else
    if l.follow_primary_lock_pending then
      { follow_primary_count := 1,
        follow_primary_lock_held_remotely := true,
        follow_primary_lock_pending := false }
    else
      { l with follow_primary_count := 0, follow_primary_lock_held_remotely := false }

/-! ## Status file persistence (pgpool_main.c lines 3675-3830 and 3835-3941) -/

/-- The per backend line of write_status_file (lines 3886-3898): UP and
CONNECT_WAIT both serialize as up. -/
def status_file_line (s : BackendStatus) : String :=
  if s = CON_UP ∨ s = CON_CONNECT_WAIT then "up"
  else if s = CON_DOWN then "down"
  else "unused"

/-- write_status_file (lines 3835-3941) at the level of file content: when every
backend is DOWN (and there is at least one) the write is skipped and the file is
left untouched (none); otherwise the file holds one line per backend. -/
def write_status_file (backends : List BackendInfo) : Option (List String) :=
  if backends.length ≠ 0 ∧ backends.all (fun b => b.backend_status == CON_DOWN) then
    none
  else
    some (backends.map (fun b => status_file_line b.backend_status))

/-- One line of the new ascii format parsed by read_status_file (lines
3783-3812): a line that matches neither up, down nor unused is ignored, which
leaves the CON_UNUSED that the reader installed beforehand. -/
def read_status_line (line : String) : BackendStatus :=
  if line = "up" then CON_UP
  else if line = "down" then CON_DOWN
  else CON_UNUSED

/-- read_status_file on a new format file (lines 3777-3827) restricted to the
case where the file holds one line per configured backend: every backend is
first set to CON_UNUSED, then each line is applied; if no line said up
(someone_wakeup stays false) the file is treated as bogus and every backend is
coerced to CONNECT_WAIT. -/
def read_status_file (lines : List String) : List BackendStatus :=
  let parsed := lines.map read_status_line
  if parsed.any (fun s => s == CON_UP) then parsed
  else List.replicate lines.length CON_CONNECT_WAIT

/-! ## Watchdog quorum change processing (pgpool_main.c lines 1315-1328, 4038-4061) -/

/-- Watchdog node states consulted by the embedded code. -/
inductive WD_STATES where
  | WD_COORDINATOR
  | WD_STANDBY
  | WD_DEAD
deriving DecidableEq, Repr, Inhabited

/-- A recorded send_failback_request call. -/
structure FailbackRequest where
  node_id : Int
  flags : RequestDetails
deriving DecidableEq, Repr, Inhabited

/-- update_backend_quarantine_status (lines 4038-4061): for every backend that is
quarantined and DOWN, and only when the local watchdog node is the coordinator,
a failback request with the UPDATE and WATCHDOG flags is sent. -/
def update_backend_quarantine_status (wd_state : WD_STATES) (st : PoolState) :
    List FailbackRequest :=
  (List.range st.backends.length).filterMap (fun i =>
    if (st.getB (Int.ofNat i)).quarantine = true ∧
       (st.getB (Int.ofNat i)).backend_status = CON_DOWN ∧
       wd_state = WD_STATES.WD_COORDINATOR then
      some ⟨Int.ofNat i, ⟨false, false, true, true⟩⟩
    else none)

/-- The WATCHDOG_QUORUM_CHANGED slot of sigusr1_interupt_processor (lines
1315-1328): quarantine statuses are updated only when the cluster holds the
quorum (quorum state at least 0). -/
def watchdog_quorum_changed_slot (quorum_state : Int) (wd_state : WD_STATES)
    (st : PoolState) : List FailbackRequest :=
  if 0 ≤ quorum_state then update_backend_quarantine_status wd_state st else []

/-! ## Primary finder classification (verify_backend_node_status, lines 2971-3243) -/

/-- POOL_NODE_STATUS of the shared headers, the classification produced by
verify_backend_node_status. -/
inductive POOL_NODE_STATUS where
  | POOL_NODE_STATUS_UNUSED
  | POOL_NODE_STATUS_PRIMARY
  | POOL_NODE_STATUS_STANDBY
  | POOL_NODE_STATUS_INVALID
deriving DecidableEq, Repr, Inhabited

export POOL_NODE_STATUS (POOL_NODE_STATUS_UNUSED POOL_NODE_STATUS_PRIMARY
  POOL_NODE_STATUS_STANDBY POOL_NODE_STATUS_INVALID)

/-- Result of probing one backend with SELECT pg_is_in_recovery(): no usable
connection or failed query, the answer t, the answer f, or anything else. -/
inductive ProbeResult where
  | no_connection
  | in_recovery
  | not_in_recovery
  | other
deriving DecidableEq, Repr, Inhabited

/-- The first classification loop of verify_backend_node_status (lines
2981-3011): every node starts UNUSED; a valid, respondent node becomes STANDBY
on t and PRIMARY on f. -/
def verify_classify (st : PoolState) (probes : Nat → ProbeResult) :
    List POOL_NODE_STATUS :=
  (List.range st.backends.length).map (fun i =>
    if VALID_BACKEND st (Int.ofNat i) = true then
      match probes i with
      | ProbeResult.in_recovery => POOL_NODE_STATUS_STANDBY
      | ProbeResult.not_in_recovery => POOL_NODE_STATUS_PRIMARY
      | _ => POOL_NODE_STATUS_UNUSED
    else POOL_NODE_STATUS_UNUSED)

/-- The marking loop for multiple primaries without standbys (lines 3046-3068):
the first PRIMARY in the list is kept, every later PRIMARY becomes INVALID when
detach_false_primary is set and UNUSED otherwise. -/
def markFalsePrimaries (detach : Bool) : List POOL_NODE_STATUS → List POOL_NODE_STATUS
  | [] => []
  | s :: rest =>
      if s = POOL_NODE_STATUS_PRIMARY then
        s :: rest.map (fun t =>
          if t = POOL_NODE_STATUS_PRIMARY then
            (if detach then POOL_NODE_STATUS_INVALID else POOL_NODE_STATUS_UNUSED)
          else t)
      else s :: markFalsePrimaries detach rest

/-- primary[i] of the connectivity check (lines 3122-3208): how many classified
standbys report a streaming wal receiver whose conninfo matches primary i.  The
oracle connects abstracts the pg_stat_wal_receiver query and the host and port
comparison. -/
def count_owned (cls : List POOL_NODE_STATUS) (connects : Nat → Nat → Bool)
    (i : Nat) : Nat :=
  ((List.range cls.length).filter (fun j =>
    cls.getD j POOL_NODE_STATUS_UNUSED == POOL_NODE_STATUS_STANDBY && connects i j)).length

/-- true_primary of the connectivity check: the last classified primary that owns
every standby, or -1. -/
def true_primary_of (cls : List POOL_NODE_STATUS) (connects : Nat → Nat → Bool)
    (nstby : Nat) : Int :=
  match ((List.range cls.length).filter (fun i =>
      cls.getD i POOL_NODE_STATUS_UNUSED == POOL_NODE_STATUS_PRIMARY &&
      count_owned cls connects i == nstby)).getLast? with
  | some i => (i : Int)
  | none => -1

/-- verify_backend_node_status (lines 2971-3243).  probes gives the
pg_is_in_recovery answer per node; version_ge96 abstracts the check that some
valid backend runs at least 9.6.0; connects abstracts the wal receiver
connectivity answers. -/
def verify_backend_node_status (cfg : PoolConfig) (st : PoolState)
    (probes : Nat → ProbeResult) (version_ge96 : Bool)
    (connects : Nat → Nat → Bool) : List POOL_NODE_STATUS :=
  let cls := verify_classify st probes
  let num_primaries := cls.count POOL_NODE_STATUS_PRIMARY
  let num_standbys := cls.count POOL_NODE_STATUS_STANDBY
  if num_primaries = 0 then cls
  else if num_standbys = 0 then
    if num_primaries = 1 then cls
    else markFalsePrimaries cfg.detach_false_primary cls
  else
    if cfg.detach_false_primary = false then cls
    else if version_ge96 = false then cls
    else
      let tp := true_primary_of cls connects num_standbys
      (List.range cls.length).map (fun i =>
        let s := cls.getD i POOL_NODE_STATUS_UNUSED
        if s = POOL_NODE_STATUS_PRIMARY ∧ count_owned cls connects i < num_standbys ∧
           0 ≤ tp then
          POOL_NODE_STATUS_INVALID
        else s)

/-! ## The failover engine: one request of the drain loop of failover()
(pgpool_main.c lines 1477-2138).  External observations - which shell commands
ran, whether the primary finder was probed, the restart scope - are collected in
an effects record; the result of find_primary_node_repeatedly is an oracle
argument since it probes the backends. -/

/-- The externally observable effects of processing one request. -/
structure FailoverEffects where
  skipped : Bool
  ran_failback_command : Bool
  failover_command_nodes : List Int
  invoked_find_primary : Bool
  need_to_restart_children : Bool
  selective_restart : Bool
  forked_follow_child : Bool
deriving DecidableEq, Repr, Inhabited

/-- Intermediate result of the per kind section of the loop body (lines
1530-1700): the mutated state, the search_primary and all_backend_down locals,
the node ids recorded in the nodes array, the restart decision made so far and
whether the failback command ran. -/
structure KindResult where
  st : PoolState
  search_primary : Bool
  all_backend_down : Bool
  nodes : List Int
  need_to_restart_children : Bool
  selective_restart : Bool
  ran_failback_command : Bool
deriving Repr, Inhabited

/-- The per kind section of the loop body (lines 1510-1700): validation and the
status transition.  none means the iteration ended with continue (the request
was rejected, no backend was degenerated, or the request was CLOSE_IDLE, which
only signals the children). -/
def failover_apply_kind (cfg : PoolConfig) (st0 : PoolState)
    (req : NodeStateRequest) : Option KindResult :=
  let node_id := req.node_id_set.headD (-1)
  if req.kind = CLOSE_IDLE_REQUEST then none
  else if req.kind = NODE_UP_REQUEST then
    -- validation, lines 1532-1545; the NODE_DOWN disjunct there is dead code
    -- inside this branch and is dropped
    if node_id < 0 ∨ MAX_NUM_BACKENDS ≤ node_id ∨
       (¬(RAW_MODE cfg ∧ (st0.getB node_id).backend_status = CON_DOWN) ∧
        VALID_BACKEND st0 node_id = true) then none
    else
      let all_backend_down := check_all_backend_down st0
      let st1 := st0.setStatus node_id CON_CONNECT_WAIT
      if req.request_details.update then
        let st2 := st1.setQuarantine node_id false
        let st3 := { st2 with main_node_id := get_next_main_node cfg st2 }
        if st3.primary_node_id = -1 ∧ (st3.getB node_id).role = ROLE_PRIMARY then
          some ⟨{ st3 with primary_node_id := node_id }, false, all_backend_down,
                [], true, false, false⟩
        else if all_backend_down = false then
          some ⟨st3, false, all_backend_down, [], false, false, false⟩
        else
          some ⟨st3, false, all_backend_down, [], true, false, false⟩
      else
        -- a proper failback: status file written, failback command run
        some ⟨st1, true, all_backend_down, [], true, false, true⟩
  else if req.kind = PROMOTE_NODE_REQUEST then
    if node_id ≠ -1 ∧ VALID_BACKEND st0 node_id = true then
      some ⟨st0, true, true, [], true, false, false⟩
    else none
  else
    -- NODE_DOWN_REQUEST and NODE_QUARANTINE_REQUEST, lines 1642-1700
    let step := fun (acc : PoolState × List Int × Bool) (i : Int) =>
      let st := acc.1
      if i ≠ -1 ∧ ((st.getB i).quarantine = true ∨
                   (RAW_MODE cfg ∧ VALID_BACKEND_RAW st i = true) ∨
                   VALID_BACKEND st i = true) then
        let stA := st.setStatus i CON_DOWN
        if req.kind = NODE_QUARANTINE_REQUEST then
          (stA.setQuarantine i true, acc.2.1 ++ [i], acc.2.2)
        else
          let stB :=
            if stA.primary_node_id = -1 ∧ (stA.getB i).quarantine = true ∧
               (stA.getB i).role = ROLE_PRIMARY then
              ({ stA with primary_node_id := i }, false)
            else (stA, acc.2.2)
          (stB.1.setQuarantine i false, acc.2.1 ++ [i], stB.2)
      else acc
    let res := req.node_id_set.foldl step (st0, [], true)
    if res.2.1 = [] then none
    else some ⟨res.1, res.2.2, true, res.2.1, true, false, false⟩

/-- The degeneration loop of the follow primary block (lines 1948-1966): every
backend other than the kept one is marked DOWN. -/
def degenerate_from (keep : Int) : Nat → List BackendInfo → List BackendInfo
  | _, [] => []
  | i, b :: rest =>
      (if Int.ofNat i = keep then b else { b with backend_status := CON_DOWN }) ::
      degenerate_from keep (i + 1) rest

/-- State after the follow primary degeneration keeping only node keep. -/
def degenerate_all_except (st : PoolState) (keep : Int) : PoolState :=
  { st with backends := degenerate_from keep 0 st.backends }

/-- node_id = node_id_set[0] (line 1527). -/
def fo_node_id (req : NodeStateRequest) : Int := req.node_id_set.headD (-1)

/-- The restart scope decision (lines 1752-1843): whether the query workers are
restarted now and whether the restart is selective. -/
def restart_decision (cfg : PoolConfig) (req : NodeStateRequest) (kr : KindResult) :
    Bool × Bool :=
  if STREAM cfg ∧ req.kind = NODE_UP_REQUEST ∧ kr.all_backend_down = false ∧
     0 ≤ kr.st.primary_node_id ∧ kr.st.primary_node_id ≠ fo_node_id req then
    if req.request_details.update = false then (false, false)
    else (kr.need_to_restart_children, kr.selective_restart)
  else if STREAM cfg ∧
          (req.kind = NODE_DOWN_REQUEST ∨ req.kind = NODE_QUARANTINE_REQUEST) ∧
          req.request_details.switchover = true ∧
          fo_node_id req ≠ PRIMARY_NODE_ID kr.st then
    (true, true)
  else (true, false)

/-- Determination of the new primary (lines 1862-1920): the possibly mutated
state, the value of new_primary (initialized -1), and whether
find_primary_node_repeatedly was invoked (its result is the probe argument). -/
def determine_new_primary (cfg : PoolConfig) (req : NodeStateRequest)
    (kr : KindResult) (probe : Int) : PoolState × Int × Bool :=
  if req.kind = PROMOTE_NODE_REQUEST ∧ VALID_BACKEND kr.st (fo_node_id req) = true then
    (kr.st, fo_node_id req, false)
  else if req.kind = NODE_QUARANTINE_REQUEST then
    if kr.st.primary_node_id = fo_node_id req then
      (kr.st.setRole (fo_node_id req) ROLE_PRIMARY, -1, false)
    else if SL_MODE cfg then (kr.st, kr.st.primary_node_id, false)
    else (kr.st, -1, false)
  else if SL_MODE cfg ∧ req.kind = NODE_DOWN_REQUEST then
    if 0 ≤ kr.st.primary_node_id ∧ kr.st.primary_node_id ≠ fo_node_id req then
      (kr.st, kr.st.primary_node_id, false)
    else
      ((if 0 ≤ kr.st.primary_node_id then
          kr.st.setRole kr.st.primary_node_id ROLE_STANDBY
        else kr.st), probe, true)
  else if kr.search_primary = false then (kr.st, kr.st.primary_node_id, false)
  else (kr.st, probe, true)

/-- The follow primary block (lines 1927-1988) applied to the state st5 produced
by the new primary determination: the possibly degenerated state and the value
of follow_cnt. -/
def follow_primary_block (cfg : PoolConfig) (req : NodeStateRequest)
    (kr : KindResult) (st5 : PoolState) (new_primary : Int) : PoolState × Nat :=
  if STREAM cfg ∧
     (cfg.follow_primary_command = true ∨ req.kind = PROMOTE_NODE_REQUEST) ∧
     ((req.kind = NODE_DOWN_REQUEST ∧ 0 ≤ st5.primary_node_id ∧
       st5.primary_node_id ∈ kr.nodes) ∨
      (req.kind = NODE_DOWN_REQUEST ∧ st5.primary_node_id < 0 ∧ 0 ≤ new_primary) ∨
      (0 ≤ fo_node_id req ∧ req.kind = PROMOTE_NODE_REQUEST ∧
       VALID_BACKEND st5 (fo_node_id req) = true)) then
    if 0 ≤ new_primary then
      (degenerate_all_except st5 new_primary,
       ((List.range st5.backends.length).filter
         (fun i => Int.ofNat i != new_primary)).length)
    else (st5, 0)
  else (st5, 0)

/-- Saving the new primary node id (lines 1990-2003): stamp the PRIMARY role on
a changed primary and store new_primary into Req_info. -/
def save_primary_node (st6 : PoolState) (new_primary : Int) : PoolState :=
  { (if st6.primary_node_id ≠ new_primary ∧ 0 ≤ new_primary then
       st6.setRole new_primary ROLE_PRIMARY
     else st6) with primary_node_id := new_primary }

/-- The state after the follow primary block. -/
def fo_after_follow (cfg : PoolConfig) (req : NodeStateRequest) (kr : KindResult)
    (probe : Int) : PoolState × Nat :=
  follow_primary_block cfg req kr (determine_new_primary cfg req kr probe).1
    (determine_new_primary cfg req kr probe).2.1

/-- The final value stored into main_node_id (lines 1976 and 2007-2013, selecting
between the main node recomputed after follow degeneration and the one computed
at line 1702). -/
def fo_new_main (cfg : PoolConfig) (req : NodeStateRequest) (kr : KindResult)
    (probe : Int) : Int :=
  if 0 < (fo_after_follow cfg req kr probe).2 then
    get_next_main_node cfg (fo_after_follow cfg req kr probe).1
  else get_next_main_node cfg kr.st

/-- The final state of one accepted request. -/
def fo_final_state (cfg : PoolConfig) (req : NodeStateRequest) (kr : KindResult)
    (probe : Int) : PoolState :=
  if 0 ≤ fo_new_main cfg req kr probe then
    { save_primary_node (fo_after_follow cfg req kr probe).1
        (determine_new_primary cfg req kr probe).2.1 with
      main_node_id := fo_new_main cfg req kr probe }
  else
    save_primary_node (fo_after_follow cfg req kr probe).1
      (determine_new_primary cfg req kr probe).2.1

/-- The tail of the loop body shared by every accepted request (lines 1702-2137):
main node recomputation, restart scope, failover command, new primary
determination, follow primary handling and the final stores. -/
def failover_common (cfg : PoolConfig) (req : NodeStateRequest) (kr : KindResult)
    (probe : Int) : PoolState × FailoverEffects :=
  (fo_final_state cfg req kr probe,
   ⟨false, kr.ran_failback_command,
    (if req.kind = NODE_DOWN_REQUEST then kr.nodes else []),
    (determine_new_primary cfg req kr probe).2.2,
    (restart_decision cfg req kr).1,
    (restart_decision cfg req kr).2,
    decide (0 < (fo_after_follow cfg req kr probe).2 ∧
            cfg.follow_primary_command = true)⟩)

/-- Effects of an iteration that ended with continue. -/
def skippedEffects : FailoverEffects := ⟨true, false, [], false, true, false, false⟩

/-- One iteration of the drain loop of failover() applied to one dequeued
request. -/
def failover_one_request (cfg : PoolConfig) (st0 : PoolState)
    (req : NodeStateRequest) (probe : Int) : PoolState × FailoverEffects :=
  match failover_apply_kind cfg st0 req with
  | none => (st0, skippedEffects)
  | some kr => failover_common cfg req kr probe

/-! ## Helper lemmas about the embedded state operations -/

theorem getD_set (l : List α) (i j : Nat) (a d : α) :
    (l.set i a).getD j d = if i = j ∧ j < l.length then a else l.getD j d := by
  by_cases hij : i = j
  · subst hij
    by_cases hb : i < l.length
    · simp [List.getD_eq_getElem?_getD, List.getElem?_set_self hb, hb]
    · rw [List.set_eq_of_length_le (by omega)]
      simp [hb]
  · simp [List.getD_eq_getElem?_getD, List.getElem?_set_ne hij, hij]

theorem length_setB (st : PoolState) (i : Int) (f : BackendInfo → BackendInfo) :
    (st.setB i f).backends.length = st.backends.length := by
  unfold PoolState.setB
  split <;> simp

theorem primary_setB (st : PoolState) (i : Int) (f : BackendInfo → BackendInfo) :
    (st.setB i f).primary_node_id = st.primary_node_id := by
  unfold PoolState.setB
  split <;> rfl

theorem main_setB (st : PoolState) (i : Int) (f : BackendInfo → BackendInfo) :
    (st.setB i f).main_node_id = st.main_node_id := by
  unfold PoolState.setB
  split <;> rfl

theorem getB_setB (st : PoolState) (i : Int) (f : BackendInfo → BackendInfo) (j : Int) :
    (st.setB i f).getB j =
      if i = j ∧ 0 ≤ i ∧ i.toNat < st.backends.length then f (st.getB i) else st.getB j := by
  by_cases h0 : 0 ≤ i
  · by_cases hj : 0 ≤ j
    · by_cases hij : i = j
      · subst hij
        by_cases hb : i.toNat < st.backends.length
        · rw [if_pos ⟨rfl, h0, hb⟩]
          simp only [PoolState.setB, PoolState.getB, if_pos h0, getD_set]
          simp [hb]
        · rw [if_neg (fun hc => hb hc.2.2)]
          simp only [PoolState.setB, PoolState.getB, if_pos h0, if_pos hj, getD_set]
          simp [hb]
      · rw [if_neg (show ¬(i = j ∧ 0 ≤ i ∧ i.toNat < st.backends.length) from
            fun hc => hij hc.1)]
        have hnat : i.toNat ≠ j.toNat := by omega
        simp only [PoolState.setB, PoolState.getB, if_pos h0, if_pos hj, getD_set]
        simp [hnat]
    · rw [if_neg (show ¬(i = j ∧ 0 ≤ i ∧ i.toNat < st.backends.length) from
          fun hc => hj (hc.1 ▸ h0))]
      simp only [PoolState.setB, PoolState.getB, if_pos h0, if_neg hj]
  · rw [if_neg (show ¬(i = j ∧ 0 ≤ i ∧ i.toNat < st.backends.length) from
        fun hc => h0 hc.2.1)]
    simp only [PoolState.setB, if_neg h0]

theorem length_setStatus (st : PoolState) (i : Int) (s : BackendStatus) :
    (st.setStatus i s).backends.length = st.backends.length := length_setB ..

theorem length_setQuarantine (st : PoolState) (i : Int) (q : Bool) :
    (st.setQuarantine i q).backends.length = st.backends.length := length_setB ..

theorem length_setRole (st : PoolState) (i : Int) (r : Role) :
    (st.setRole i r).backends.length = st.backends.length := length_setB ..

theorem primary_setStatus (st : PoolState) (i : Int) (s : BackendStatus) :
    (st.setStatus i s).primary_node_id = st.primary_node_id := primary_setB ..

theorem primary_setQuarantine (st : PoolState) (i : Int) (q : Bool) :
    (st.setQuarantine i q).primary_node_id = st.primary_node_id := primary_setB ..

theorem primary_setRole (st : PoolState) (i : Int) (r : Role) :
    (st.setRole i r).primary_node_id = st.primary_node_id := primary_setB ..

theorem getB_setStatus (st : PoolState) (i : Int) (s : BackendStatus) (j : Int) :
    (st.setStatus i s).getB j =
      if i = j ∧ 0 ≤ i ∧ i.toNat < st.backends.length then
        { st.getB i with backend_status := s }
      else st.getB j := getB_setB ..

theorem getB_setQuarantine (st : PoolState) (i : Int) (q : Bool) (j : Int) :
    (st.setQuarantine i q).getB j =
      if i = j ∧ 0 ≤ i ∧ i.toNat < st.backends.length then
        { st.getB i with quarantine := q }
      else st.getB j := getB_setB ..

theorem getB_setRole (st : PoolState) (i : Int) (r : Role) (j : Int) :
    (st.setRole i r).getB j =
      if i = j ∧ 0 ≤ i ∧ i.toNat < st.backends.length then
        { st.getB i with role := r }
      else st.getB j := getB_setB ..

theorem status_getB_setRole (st : PoolState) (i : Int) (r : Role) (j : Int) :
    ((st.setRole i r).getB j).backend_status = (st.getB j).backend_status := by
  rw [getB_setRole]
  split
  · rename_i h
    rw [h.1]
  · rfl

theorem quarantine_getB_setRole (st : PoolState) (i : Int) (r : Role) (j : Int) :
    ((st.setRole i r).getB j).quarantine = (st.getB j).quarantine := by
  rw [getB_setRole]
  split
  · rename_i h
    rw [h.1]
  · rfl

/-! ## Claim C1: enqueue on a full queue -/

/-- C1: for every request and every queue state, register_node_operation_request
on a full queue (tail - head = Q) returns false to the producer, takes no post
enqueue action, and leaves head, tail and the stored requests unchanged;
moreover neither a successful enqueue nor a drain iteration ever makes
tail - head exceed Q, so the queue size never exceeds Q. -/
theorem register_node_operation_request_full_rejects
    (Q : Int) (isMain : Bool) (q : RequestQueue) (kind : POOL_REQUEST_KIND)
    (ids : List Int) (flags : RequestDetails)
    (hfull : q.request_queue_tail - Q = q.request_queue_head) :
    (register_node_operation_request Q isMain q kind ids flags).1 = false ∧
    (register_node_operation_request Q isMain q kind ids flags).2.1 = q ∧
    (∀ q2 : RequestQueue,
      q2.request_queue_tail - q2.request_queue_head ≤ Q →
      (register_node_operation_request Q isMain q2 kind ids flags).2.1.request_queue_tail -
        (register_node_operation_request Q isMain q2 kind ids flags).2.1.request_queue_head ≤ Q) ∧
    (∀ (q2 : RequestQueue) (e : QueueEvent),
      q2.request_queue_tail - q2.request_queue_head ≤ Q →
      (queue_step Q q2 e).request_queue_tail -
        (queue_step Q q2 e).request_queue_head ≤ Q) := by
  refine ⟨?_, ?_, ?_, ?_⟩
  · unfold register_node_operation_request
    rw [if_pos hfull]
  · unfold register_node_operation_request
    rw [if_pos hfull]
  · intro q2 hle
    unfold register_node_operation_request
    by_cases h2 : q2.request_queue_tail - Q = q2.request_queue_head
    · rw [if_pos h2]
      exact hle
    · rw [if_neg h2]
      simp only
      omega
  · intro q2 e hle
    cases e with
    | enq r =>
      simp only [queue_step]
      by_cases h2 : q2.request_queue_tail - Q = q2.request_queue_head
      · rw [if_pos h2]
        exact hle
      · rw [if_neg h2]
        simp only
        omega
    | deq =>
      simp only [queue_step]
      by_cases h2 : q2.request_queue_head = q2.request_queue_tail
      · rw [if_pos h2]
        exact hle
      · rw [if_neg h2]
        simp only
        omega

/-- A concrete full queue of capacity 2. -/
def sampleFullQueue : RequestQueue :=
  { request_queue_head := 0, request_queue_tail := 2,
    request := fun _ => default, switching := false }

/-- Witness for C1 at the concrete full queue of capacity 2. -/
theorem register_node_operation_request_full_rejects_witness :
    (sampleFullQueue.request_queue_tail - 2 = sampleFullQueue.request_queue_head) ∧
    ((register_node_operation_request 2 true sampleFullQueue NODE_DOWN_REQUEST [0] default).1 = false ∧
     (register_node_operation_request 2 true sampleFullQueue NODE_DOWN_REQUEST [0] default).2.1 = sampleFullQueue ∧
     (∀ q2 : RequestQueue,
       q2.request_queue_tail - q2.request_queue_head ≤ 2 →
       (register_node_operation_request 2 true q2 NODE_DOWN_REQUEST [0] default).2.1.request_queue_tail -
         (register_node_operation_request 2 true q2 NODE_DOWN_REQUEST [0] default).2.1.request_queue_head ≤ 2) ∧
     (∀ (q2 : RequestQueue) (e : QueueEvent),
       q2.request_queue_tail - q2.request_queue_head ≤ 2 →
       (queue_step 2 q2 e).request_queue_tail -
         (queue_step 2 q2 e).request_queue_head ≤ 2)) :=
  ⟨by decide,
   register_node_operation_request_full_rejects 2 true sampleFullQueue
     NODE_DOWN_REQUEST [0] default (by decide)⟩

/-! ## Claim C3: the action taken after a successful enqueue -/

/-- A concrete queue that is empty but has the switching flag raised. -/
def sampleSwitchingQueue : RequestQueue :=
  { request_queue_head := 0, request_queue_tail := 0,
    request := fun _ => default, switching := true }

/-- C3 counterexample: while switching is true a successful enqueue by a process
other than the supervisor takes no action at all - in particular it does not
signal FAILOVER_INTERRUPT, contrary to the claim that every case other than
(switching false and supervisor) signals. -/
theorem register_switching_no_signal_counterexample :
    (register_node_operation_request 10 false sampleSwitchingQueue
        NODE_DOWN_REQUEST [1] default).1 = true ∧
    sampleSwitchingQueue.switching = true ∧
    (register_node_operation_request 10 false sampleSwitchingQueue
        NODE_DOWN_REQUEST [1] default).2.2 = PostEnqueueAction.noAction ∧
    PostEnqueueAction.noAction ≠ PostEnqueueAction.signalFailoverInterrupt := by
  refine ⟨by decide, rfl, by decide, by decide⟩

/-- C3 amended: after a successful enqueue, if switching is false the supervisor
drains the queue itself and any other process signals FAILOVER_INTERRUPT; if
switching is true the caller does nothing, leaving the request to the drain
already in progress. -/
theorem register_post_enqueue_action
    (Q : Int) (isMain : Bool) (q : RequestQueue) (kind : POOL_REQUEST_KIND)
    (ids : List Int) (flags : RequestDetails)
    (hnotfull : q.request_queue_tail - Q ≠ q.request_queue_head) :
    (register_node_operation_request Q isMain q kind ids flags).1 = true ∧
    (q.switching = false → isMain = true →
      (register_node_operation_request Q isMain q kind ids flags).2.2 =
        PostEnqueueAction.runFailover) ∧
    (q.switching = false → isMain = false →
      (register_node_operation_request Q isMain q kind ids flags).2.2 =
        PostEnqueueAction.signalFailoverInterrupt) ∧
    (q.switching = true →
      (register_node_operation_request Q isMain q kind ids flags).2.2 =
        PostEnqueueAction.noAction) := by
  unfold register_node_operation_request
  rw [if_neg hnotfull]
  refine ⟨rfl, ?_, ?_, ?_⟩
  · intro hsw hm
    simp [hsw, hm]
  · intro hsw hm
    simp [hsw, hm]
  · intro hsw
    simp [hsw]

/-- A concrete queue that is empty with the switching flag clear. -/
def sampleIdleQueue : RequestQueue :=
  { request_queue_head := 0, request_queue_tail := 0,
    request := fun _ => default, switching := false }

/-- Witness for the amended C3 at a concrete non-full queue. -/
theorem register_post_enqueue_action_witness :
    (sampleIdleQueue.request_queue_tail - 10 ≠ sampleIdleQueue.request_queue_head) ∧
    ((register_node_operation_request 10 true sampleIdleQueue NODE_UP_REQUEST [0] default).1 = true ∧
     (sampleIdleQueue.switching = false → true = true →
       (register_node_operation_request 10 true sampleIdleQueue NODE_UP_REQUEST [0] default).2.2 =
         PostEnqueueAction.runFailover) ∧
     (sampleIdleQueue.switching = false → true = false →
       (register_node_operation_request 10 true sampleIdleQueue NODE_UP_REQUEST [0] default).2.2 =
         PostEnqueueAction.signalFailoverInterrupt) ∧
     (sampleIdleQueue.switching = true →
       (register_node_operation_request 10 true sampleIdleQueue NODE_UP_REQUEST [0] default).2.2 =
         PostEnqueueAction.noAction)) :=
  ⟨by decide,
   register_post_enqueue_action 10 true sampleIdleQueue NODE_UP_REQUEST [0] default (by decide)⟩

/-! ## Claim C9: follow primary lock transfer -/

/-- C9: a remote acquire while the lock is held locally does not block: it
returns false at once and only sets follow_primary_lock_pending; the subsequent
local release transfers the lock to the remote node, leaving
follow_primary_count = 1, follow_primary_lock_held_remotely = true and
follow_primary_lock_pending = false. -/
theorem follow_primary_remote_acquire_then_local_release
    (l : FollowPrimaryLock) (block : Bool)
    (hheld : 0 < l.follow_primary_count)
    (hlocal : l.follow_primary_lock_held_remotely = false) :
    pool_acquire_follow_primary_lock block true l =
      AcquireOutcome.returns false { l with follow_primary_lock_pending := true } ∧
    pool_release_follow_primary_lock false
        { l with follow_primary_lock_pending := true } =
      { follow_primary_count := 1,
        follow_primary_lock_held_remotely := true,
        follow_primary_lock_pending := false } := by
  constructor
  · unfold pool_acquire_follow_primary_lock
    rw [if_neg (by omega), if_pos rfl, if_neg (by simp [hlocal])]
  · unfold pool_release_follow_primary_lock
    rw [if_neg (by simp), if_pos rfl]

/-- Witness for C9 at a concrete locally held lock. -/
theorem follow_primary_remote_acquire_then_local_release_witness :
    (0 < (1 : Int) ∧ false = false) ∧
    (pool_acquire_follow_primary_lock false true ⟨1, false, false⟩ =
       AcquireOutcome.returns false ⟨1, false, true⟩ ∧
     pool_release_follow_primary_lock false ⟨1, false, true⟩ = ⟨1, true, false⟩) :=
  ⟨⟨by decide, rfl⟩,
   follow_primary_remote_acquire_then_local_release ⟨1, false, false⟩ false
     (by decide) rfl⟩

/-! ## Claim C10: CONNECT_WAIT is persisted as up and restored as UP -/

/-- C10: write_status_file emits the same line up for a backend in UP or
CONNECT_WAIT and read_status_file maps an up line to UP, so a backend in
CONNECT_WAIT before a persist and load cycle is restored as UP, not
CONNECT_WAIT. -/
theorem status_file_connect_wait_becomes_up
    (backends : List BackendInfo) (i : Nat) (h : i < backends.length)
    (hcw : (backends.getD i default).backend_status = CON_CONNECT_WAIT) :
    status_file_line CON_CONNECT_WAIT = "up" ∧
    status_file_line CON_UP = "up" ∧
    read_status_line "up" = CON_UP ∧
    ∃ ls, write_status_file backends = some ls ∧
      (read_status_file ls).getD i CON_UNUSED = CON_UP := by
  refine ⟨rfl, rfl, rfl, ?_⟩
  have hget : backends[i]? = some (backends.getD i default) := by
    rw [List.getElem?_eq_getElem h, List.getD_eq_getElem?_getD,
      List.getElem?_eq_getElem h]
    simp
  have hmem : backends.getD i default ∈ backends := List.getElem?_mem hget
  have hnotall : ¬(backends.length ≠ 0 ∧
      backends.all (fun b => b.backend_status == CON_DOWN)) := by
    intro hc
    have := List.all_eq_true.mp hc.2 _ hmem
    rw [hcw] at this
    exact absurd this (by decide)
  refine ⟨backends.map (fun b => status_file_line b.backend_status), ?_, ?_⟩
  · unfold write_status_file
    rw [if_neg hnotall]
  · unfold read_status_file
    have hup : ((backends.map (fun b => status_file_line b.backend_status)).map
        read_status_line).getD i CON_UNUSED = CON_UP := by
      rw [List.map_map, List.getD_eq_getElem?_getD, List.getElem?_map, hget]
      show read_status_line (status_file_line
        (backends.getD i default).backend_status) = CON_UP
      rw [hcw]
      decide
    rw [if_pos ?_]
    · exact hup
    · refine List.any_eq_true.mpr ?_
      refine ⟨CON_UP, ?_, by decide⟩
      have hlen : i < ((backends.map (fun b => status_file_line b.backend_status)).map
          read_status_line).length := by
        simpa using h
      have : ((backends.map (fun b => status_file_line b.backend_status)).map
          read_status_line)[i]? = some CON_UP := by
        rw [List.getD_eq_getElem?_getD, List.getElem?_eq_getElem hlen] at hup
        rw [List.getElem?_eq_getElem hlen]
        simpa using hup
      exact List.getElem?_mem this

/-- Witness for C10 on a one backend configuration in CONNECT_WAIT. -/
theorem status_file_connect_wait_becomes_up_witness :
    (([⟨CON_CONNECT_WAIT, false, ROLE_STANDBY⟩] : List BackendInfo).getD 0
        default).backend_status = CON_CONNECT_WAIT ∧
    (status_file_line CON_CONNECT_WAIT = "up" ∧
     status_file_line CON_UP = "up" ∧
     read_status_line "up" = CON_UP ∧
     ∃ ls, write_status_file [⟨CON_CONNECT_WAIT, false, ROLE_STANDBY⟩] = some ls ∧
       (read_status_file ls).getD 0 CON_UNUSED = CON_UP) :=
  ⟨rfl, status_file_connect_wait_becomes_up [⟨CON_CONNECT_WAIT, false, ROLE_STANDBY⟩]
    0 (by decide) rfl⟩

/-! ## Claim C8: failback of quarantined backends on quorum change -/

/-- A concrete state with one quarantined, DOWN backend. -/
def sampleQuarantineState : PoolState :=
  { backends := [⟨CON_DOWN, true, ROLE_PRIMARY⟩], main_node_id := -1,
    primary_node_id := -1 }

/-- C8 counterexample: processing WATCHDOG_QUORUM_CHANGED with the quorum held
(quorum state 0) issues no failback request at all when the local watchdog node
is a standby, although backend 0 has its quarantined flag set - contrary to the
claim that a request is issued for every quarantined backend. -/
theorem quorum_change_standby_no_failback_counterexample :
    (sampleQuarantineState.getB 0).quarantine = true ∧
    watchdog_quorum_changed_slot 0 WD_STATES.WD_STANDBY sampleQuarantineState = [] := by
  constructor
  · decide
  · decide

/-- C8 amended: on WATCHDOG_QUORUM_CHANGED with the quorum held, and provided
the local watchdog node is the coordinator, a failback request carrying the
UPDATE and WATCHDOG flags is issued exactly for every backend whose quarantined
flag is set and whose status is DOWN. -/
theorem quorum_change_failback_requests
    (quorum_state : Int) (st : PoolState) (hq : 0 ≤ quorum_state) :
    (∀ fr ∈ watchdog_quorum_changed_slot quorum_state WD_STATES.WD_COORDINATOR st,
        fr.flags = ⟨false, false, true, true⟩) ∧
    (∀ i : Nat, i < st.backends.length →
      ((∃ fr ∈ watchdog_quorum_changed_slot quorum_state WD_STATES.WD_COORDINATOR st,
          fr.node_id = (i : Int)) ↔
        ((st.getB (i : Int)).quarantine = true ∧
         (st.getB (i : Int)).backend_status = CON_DOWN))) := by
  unfold watchdog_quorum_changed_slot
  rw [if_pos hq]
  constructor
  · intro fr hfr
    unfold update_backend_quarantine_status at hfr
    obtain ⟨j, _, hj⟩ := List.mem_filterMap.mp hfr
    by_cases hc : (st.getB (Int.ofNat j)).quarantine = true ∧
        (st.getB (Int.ofNat j)).backend_status = CON_DOWN ∧
        WD_STATES.WD_COORDINATOR = WD_STATES.WD_COORDINATOR
    · rw [if_pos hc] at hj
      cases hj
      rfl
    · rw [if_neg hc] at hj
      cases hj
  · intro i hi
    constructor
    · rintro ⟨fr, hfr, hid⟩
      unfold update_backend_quarantine_status at hfr
      obtain ⟨j, _, hj⟩ := List.mem_filterMap.mp hfr
      by_cases hc : (st.getB (Int.ofNat j)).quarantine = true ∧
          (st.getB (Int.ofNat j)).backend_status = CON_DOWN ∧
          WD_STATES.WD_COORDINATOR = WD_STATES.WD_COORDINATOR
      · rw [if_pos hc] at hj
        cases hj
        have hji : Int.ofNat j = (i : Int) := hid
        rw [hji] at hc
        exact ⟨hc.1, hc.2.1⟩
      · rw [if_neg hc] at hj
        cases hj
    · intro hc
      refine ⟨⟨(i : Int), ⟨false, false, true, true⟩⟩, ?_, rfl⟩
      unfold update_backend_quarantine_status
      refine List.mem_filterMap.mpr ⟨i, List.mem_range.mpr hi, ?_⟩
      have hofn : Int.ofNat i = (i : Int) := rfl
      rw [if_pos ⟨by rw [hofn]; exact hc.1, by rw [hofn]; exact hc.2, rfl⟩, hofn]

/-- Witness for the amended C8 on a one backend quarantined state with the
quorum held. -/
theorem quorum_change_failback_requests_witness :
    ((0 : Int) ≤ 0) ∧
    ((∀ fr ∈ watchdog_quorum_changed_slot 0 WD_STATES.WD_COORDINATOR sampleQuarantineState,
        fr.flags = ⟨false, false, true, true⟩) ∧
     (∀ i : Nat, i < sampleQuarantineState.backends.length →
       ((∃ fr ∈ watchdog_quorum_changed_slot 0 WD_STATES.WD_COORDINATOR sampleQuarantineState,
           fr.node_id = (i : Int)) ↔
         ((sampleQuarantineState.getB (i : Int)).quarantine = true ∧
          (sampleQuarantineState.getB (i : Int)).backend_status = CON_DOWN)))) :=
  ⟨by decide, quorum_change_failback_requests 0 sampleQuarantineState (by decide)⟩

/-! ## Claim C2: the drain loop of failover() -/

theorem head_queue_step_enq (Q : Int) (st : RequestQueue) (r : NodeStateRequest) :
    (queue_step Q st (QueueEvent.enq r)).request_queue_head = st.request_queue_head := by
  simp only [queue_step]
  split <;> rfl

theorem tail_queue_step_deq (Q : Int) (st : RequestQueue) :
    (queue_step Q st QueueEvent.deq).request_queue_tail = st.request_queue_tail := by
  simp only [queue_step]
  split <;> rfl

theorem queue_run_head_mono (Q : Int) :
    ∀ (evs : List QueueEvent) (st : RequestQueue),
      st.request_queue_head ≤ (queue_run Q st evs).request_queue_head := by
  intro evs
  induction evs with
  | nil => intro st; exact le_refl _
  | cons e evs ih =>
    intro st
    refine le_trans ?_ (ih (queue_step Q st e))
    cases e with
    | enq r => rw [head_queue_step_enq]
    | deq =>
      simp only [queue_step]
      split
      · exact le_refl _
      · simp only
        omega

theorem queue_run_tail_mono (Q : Int) :
    ∀ (evs : List QueueEvent) (st : RequestQueue),
      st.request_queue_tail ≤ (queue_run Q st evs).request_queue_tail := by
  intro evs
  induction evs with
  | nil => intro st; exact le_refl _
  | cons e evs ih =>
    intro st
    refine le_trans ?_ (ih (queue_step Q st e))
    cases e with
    | enq r =>
      simp only [queue_step]
      split
      · exact le_refl _
      · simp only
        omega
    | deq => rw [tail_queue_step_deq]

theorem queue_run_wf (Q : Int) :
    ∀ (evs : List QueueEvent) (st : RequestQueue),
      st.request_queue_head ≤ st.request_queue_tail →
      (queue_run Q st evs).request_queue_head ≤ (queue_run Q st evs).request_queue_tail := by
  intro evs
  induction evs with
  | nil => intro st h; exact h
  | cons e evs ih =>
    intro st h
    refine ih (queue_step Q st e) ?_
    cases e with
    | enq r =>
      simp only [queue_step]
      split
      · exact h
      · simp only
        omega
    | deq =>
      simp only [queue_step]
      by_cases hemp : st.request_queue_head = st.request_queue_tail
      · rw [if_pos hemp]
        exact h
      · rw [if_neg hemp]
        simp only
        omega

theorem queue_run_switching_decomp (Q : Int) :
    ∀ (evs : List QueueEvent) (st : RequestQueue), st.switching = true →
      (queue_run Q st evs).switching = false →
      ∃ l r, evs = l ++ QueueEvent.deq :: r ∧
        (queue_run Q st l).request_queue_head = (queue_run Q st l).request_queue_tail := by
  intro evs
  induction evs with
  | nil =>
    intro st hsw hf
    simp only [queue_run] at hf
    rw [hsw] at hf
    cases hf
  | cons e evs ih =>
    intro st hsw hf
    simp only [queue_run] at hf
    by_cases hstep : (queue_step Q st e).switching = true
    · obtain ⟨l, r, hlr, hemp⟩ := ih (queue_step Q st e) hstep hf
      refine ⟨e :: l, r, by rw [hlr]; rfl, ?_⟩
      simp only [queue_run]
      exact hemp
    · cases e with
      | enq r0 =>
        exfalso
        apply hstep
        simp only [queue_step]
        split <;> exact hsw
      | deq =>
        by_cases hemp : st.request_queue_head = st.request_queue_tail
        · exact ⟨[], evs, rfl, hemp⟩
        · exfalso
          apply hstep
          simp only [queue_step]
          rw [if_neg hemp]
          exact hsw

theorem mem_deq_positions (Q : Int) :
    ∀ (evs : List QueueEvent) (st : RequestQueue) (p : Int),
      p ∈ deq_positions Q st evs ↔
        st.request_queue_head < p ∧ p ≤ (queue_run Q st evs).request_queue_head := by
  intro evs
  induction evs with
  | nil =>
    intro st p
    simp only [deq_positions, queue_run, List.not_mem_nil, false_iff]
    omega
  | cons e evs ih =>
    intro st p
    cases e with
    | enq r =>
      simp only [deq_positions, queue_run]
      rw [ih, head_queue_step_enq]
    | deq =>
      by_cases hemp : st.request_queue_head = st.request_queue_tail
      · simp only [deq_positions, queue_run]
        rw [if_pos hemp, ih]
        have h1 : (queue_step Q st QueueEvent.deq).request_queue_head =
            st.request_queue_head := by
          simp only [queue_step]
          rw [if_pos hemp]
        rw [h1]
      · simp only [deq_positions, queue_run]
        rw [if_neg hemp]
        simp only [List.mem_cons]
        rw [ih]
        have h1 : (queue_step Q st QueueEvent.deq).request_queue_head =
            st.request_queue_head + 1 := by
          simp only [queue_step]
          rw [if_neg hemp]
        have h2 := queue_run_head_mono Q evs (queue_step Q st QueueEvent.deq)
        rw [h1] at h2 ⊢
        omega

theorem deq_positions_sorted (Q : Int) :
    ∀ (evs : List QueueEvent) (st : RequestQueue),
      List.Sorted (· < ·) (deq_positions Q st evs) := by
  intro evs
  induction evs with
  | nil => intro st; simp [deq_positions]
  | cons e evs ih =>
    intro st
    cases e with
    | enq r =>
      simp only [deq_positions]
      exact ih _
    | deq =>
      by_cases hemp : st.request_queue_head = st.request_queue_tail
      · simp only [deq_positions]
        rw [if_pos hemp]
        exact ih _
      · simp only [deq_positions]
        rw [if_neg hemp]
        rw [List.sorted_cons]
        refine ⟨?_, ih _⟩
        intro b hb
        have hmem := (mem_deq_positions Q evs _ b).mp hb
        have h1 : (queue_step Q st QueueEvent.deq).request_queue_head =
            st.request_queue_head + 1 := by
          simp only [queue_step]
          rw [if_neg hemp]
        rw [h1] at hmem
        omega

theorem mem_enq_positions (Q : Int) :
    ∀ (evs : List QueueEvent) (st : RequestQueue) (p : Int),
      p ∈ enq_positions Q st evs →
      st.request_queue_tail < p ∧ p ≤ (queue_run Q st evs).request_queue_tail := by
  intro evs
  induction evs with
  | nil =>
    intro st p hp
    simp [enq_positions] at hp
  | cons e evs ih =>
    intro st p hp
    cases e with
    | deq =>
      simp only [enq_positions] at hp
      have := ih _ p hp
      rw [tail_queue_step_deq] at this
      simp only [queue_run]
      exact this
    | enq r =>
      simp only [enq_positions] at hp
      by_cases hfull : st.request_queue_tail - Q = st.request_queue_head
      · rw [if_pos hfull] at hp
        have := ih _ p hp
        have h1 : (queue_step Q st (QueueEvent.enq r)).request_queue_tail =
            st.request_queue_tail := by
          simp only [queue_step]
          rw [if_pos hfull]
        rw [h1] at this
        simp only [queue_run]
        exact this
      · rw [if_neg hfull] at hp
        have h1 : (queue_step Q st (QueueEvent.enq r)).request_queue_tail =
            st.request_queue_tail + 1 := by
          simp only [queue_step]
          rw [if_neg hfull]
        have h2 := queue_run_tail_mono Q evs (queue_step Q st (QueueEvent.enq r))
        rw [h1] at h2
        simp only [queue_run]
        rcases List.mem_cons.mp hp with h | h
        · subst h
          omega
        · have := ih _ p h
          rw [h1] at this
          omega

/-- C2: failover() raises switching at entry; during a drain interleaved with
producer enqueues, switching is cleared only by the drain iteration that finds
head = tail; the drain consumes queue positions in strictly increasing (FIFO)
order; and when the drain reaches head = tail every request enqueued along the
way has been dequeued in that same drain. -/
theorem failover_drain_switching_fifo (Q : Int) (st : RequestQueue)
    (evs : List QueueEvent) (hsw : st.switching = true)
    (hwf : st.request_queue_head ≤ st.request_queue_tail) :
    ((failover_entry st).switching = true) ∧
    ((queue_run Q st evs).switching = false →
      ∃ l r, evs = l ++ QueueEvent.deq :: r ∧
        (queue_run Q st l).request_queue_head = (queue_run Q st l).request_queue_tail) ∧
    List.Sorted (· < ·) (deq_positions Q st evs) ∧
    ((queue_run Q st evs).request_queue_head = (queue_run Q st evs).request_queue_tail →
      ∀ p ∈ enq_positions Q st evs, p ∈ deq_positions Q st evs) := by
  refine ⟨rfl, queue_run_switching_decomp Q evs st hsw, deq_positions_sorted Q evs st, ?_⟩
  intro hdrained p hp
  have henq := mem_enq_positions Q evs st p hp
  rw [mem_deq_positions]
  constructor
  · omega
  · rw [← hdrained] at henq
    omega

/-- Witness for C2 on a concrete interleaving: enqueue two requests during the
drain, then three drain iterations, the last of which finds the queue empty. -/
theorem failover_drain_switching_fifo_witness :
    (sampleSwitchingQueue.switching = true ∧
     sampleSwitchingQueue.request_queue_head ≤ sampleSwitchingQueue.request_queue_tail) ∧
    (((failover_entry sampleSwitchingQueue).switching = true) ∧
     ((queue_run 3 sampleSwitchingQueue
         [QueueEvent.enq default, QueueEvent.deq, QueueEvent.enq default,
          QueueEvent.deq, QueueEvent.deq]).switching = false →
       ∃ l r, [QueueEvent.enq default, QueueEvent.deq, QueueEvent.enq default,
               QueueEvent.deq, QueueEvent.deq] = l ++ QueueEvent.deq :: r ∧
         (queue_run 3 sampleSwitchingQueue l).request_queue_head =
           (queue_run 3 sampleSwitchingQueue l).request_queue_tail) ∧
     List.Sorted (· < ·) (deq_positions 3 sampleSwitchingQueue
       [QueueEvent.enq default, QueueEvent.deq, QueueEvent.enq default,
        QueueEvent.deq, QueueEvent.deq]) ∧
     ((queue_run 3 sampleSwitchingQueue
         [QueueEvent.enq default, QueueEvent.deq, QueueEvent.enq default,
          QueueEvent.deq, QueueEvent.deq]).request_queue_head =
        (queue_run 3 sampleSwitchingQueue
         [QueueEvent.enq default, QueueEvent.deq, QueueEvent.enq default,
          QueueEvent.deq, QueueEvent.deq]).request_queue_tail →
       ∀ p ∈ enq_positions 3 sampleSwitchingQueue
           [QueueEvent.enq default, QueueEvent.deq, QueueEvent.enq default,
            QueueEvent.deq, QueueEvent.deq],
         p ∈ deq_positions 3 sampleSwitchingQueue
           [QueueEvent.enq default, QueueEvent.deq, QueueEvent.enq default,
            QueueEvent.deq, QueueEvent.deq])) :=
  ⟨⟨rfl, by decide⟩,
   failover_drain_switching_fifo 3 sampleSwitchingQueue
     [QueueEvent.enq default, QueueEvent.deq, QueueEvent.enq default,
      QueueEvent.deq, QueueEvent.deq] rfl (by decide)⟩

/-! ## Claim C7: resolution of multiple primaries -/

theorem getD_map_lt (f : POOL_NODE_STATUS → POOL_NODE_STATUS)
    (l : List POOL_NODE_STATUS) (j : Nat) (hj : j < l.length) :
    (l.map f).getD j POOL_NODE_STATUS_UNUSED = f (l.getD j POOL_NODE_STATUS_UNUSED) := by
  rw [List.getD_eq_getElem?_getD, List.getElem?_map, List.getElem?_eq_getElem hj,
    List.getD_eq_getElem?_getD, List.getElem?_eq_getElem hj]
  rfl

theorem getD_ge_length (l : List POOL_NODE_STATUS) (j : Nat) (hj : l.length ≤ j) :
    l.getD j POOL_NODE_STATUS_UNUSED = POOL_NODE_STATUS_UNUSED := by
  rw [List.getD_eq_getElem?_getD, List.getElem?_eq_none hj]
  rfl

theorem markFalsePrimaries_spec (detach : Bool) :
    ∀ cls : List POOL_NODE_STATUS, POOL_NODE_STATUS_PRIMARY ∈ cls →
    ∃ k, k < cls.length ∧
      cls.getD k POOL_NODE_STATUS_UNUSED = POOL_NODE_STATUS_PRIMARY ∧
      (∀ j, j < k → cls.getD j POOL_NODE_STATUS_UNUSED ≠ POOL_NODE_STATUS_PRIMARY) ∧
      (markFalsePrimaries detach cls).getD k POOL_NODE_STATUS_UNUSED =
        POOL_NODE_STATUS_PRIMARY ∧
      (∀ j, j ≠ k →
        cls.getD j POOL_NODE_STATUS_UNUSED = POOL_NODE_STATUS_PRIMARY →
        (markFalsePrimaries detach cls).getD j POOL_NODE_STATUS_UNUSED =
          (if detach then POOL_NODE_STATUS_INVALID else POOL_NODE_STATUS_UNUSED)) ∧
      (∀ j, cls.getD j POOL_NODE_STATUS_UNUSED ≠ POOL_NODE_STATUS_PRIMARY →
        (markFalsePrimaries detach cls).getD j POOL_NODE_STATUS_UNUSED =
          cls.getD j POOL_NODE_STATUS_UNUSED) := by
  intro cls
  induction cls with
  | nil => intro h; cases h
  | cons s rest ih =>
    intro hmem
    by_cases hs : s = POOL_NODE_STATUS_PRIMARY
    · have hmark : markFalsePrimaries detach (s :: rest) =
          s :: rest.map (fun t =>
            if t = POOL_NODE_STATUS_PRIMARY then
              (if detach then POOL_NODE_STATUS_INVALID else POOL_NODE_STATUS_UNUSED)
            else t) := by
        simp only [markFalsePrimaries]
        rw [if_pos hs]
      refine ⟨0, by simp, by simpa using hs, by omega, ?_, ?_, ?_⟩
      · rw [hmark]
        simpa using hs
      · intro j hj hprim
        cases j with
        | zero => exact absurd rfl hj
        | succ j2 =>
          rw [List.getD_cons_succ] at hprim
          have hlt : j2 < rest.length := by
            by_contra hge
            rw [getD_ge_length rest j2 (by omega)] at hprim
            exact absurd hprim (by decide)
          rw [hmark, List.getD_cons_succ, getD_map_lt _ _ _ hlt, hprim, if_pos rfl]
      · intro j hprim
        cases j with
        | zero => simp only [List.getD_cons_zero] at hprim ⊢; exact absurd hs hprim
        | succ j2 =>
          rw [List.getD_cons_succ] at hprim
          rw [hmark]
          simp only [List.getD_cons_succ]
          by_cases hlt : j2 < rest.length
          · rw [getD_map_lt _ _ _ hlt, if_neg hprim]
          · rw [getD_ge_length _ j2 (by simpa using Nat.le_of_not_lt hlt),
              getD_ge_length rest j2 (Nat.le_of_not_lt hlt)]
    · have hmem2 : POOL_NODE_STATUS_PRIMARY ∈ rest := by
        cases List.mem_cons.mp hmem with
        | inl h => exact absurd h.symm hs
        | inr h => exact h
      obtain ⟨k2, hk2len, hk2prim, hk2first, hk2keep, hk2mark, hk2other⟩ := ih hmem2
      have hmark : markFalsePrimaries detach (s :: rest) =
          s :: markFalsePrimaries detach rest := by
        simp only [markFalsePrimaries]
        rw [if_neg hs]
      refine ⟨k2 + 1, by simpa using hk2len, by simpa using hk2prim, ?_, ?_, ?_, ?_⟩
      · intro j hj
        cases j with
        | zero => simpa using hs
        | succ j2 =>
          rw [List.getD_cons_succ]
          exact hk2first j2 (by omega)
      · rw [hmark, List.getD_cons_succ]
        exact hk2keep
      · intro j hj hprim
        cases j with
        | zero =>
          rw [List.getD_cons_zero] at hprim
          exact absurd hprim hs
        | succ j2 =>
          rw [List.getD_cons_succ] at hprim
          rw [hmark, List.getD_cons_succ]
          exact hk2mark j2 (by omega) hprim
      · intro j hprim
        cases j with
        | zero =>
          rw [hmark]
          simp
        | succ j2 =>
          rw [List.getD_cons_succ] at hprim
          rw [hmark, List.getD_cons_succ, List.getD_cons_succ]
          exact hk2other j2 hprim

/-- A concrete probe outcome with two primaries (nodes 0 and 1) and one standby
(node 2). -/
def sampleSplitProbes : Nat → ProbeResult := fun i =>
  if i = 2 then ProbeResult.in_recovery else ProbeResult.not_in_recovery

/-- A concrete three node state, all valid. -/
def sampleThreeNodeState : PoolState :=
  { backends := [⟨CON_UP, false, ROLE_PRIMARY⟩, ⟨CON_UP, false, ROLE_STANDBY⟩,
                 ⟨CON_UP, false, ROLE_STANDBY⟩],
    main_node_id := 0, primary_node_id := 0 }

/-- Streaming configuration with detach_false_primary off. -/
def sampleNoDetachCfg : PoolConfig :=
  { mode := ClusteringMode.stream, detach_false_primary := false,
    follow_primary_command := false }

/-- C7 counterexample: the probe classification yields two PRIMARY backends
(nodes 0 and 1) plus one standby, detach_false_primary is off, yet the
higher-indexed primary is left classified PRIMARY - it is not marked UNUSED as
the claim requires (the lowest-kept rule only applies when there is no
standby). -/
theorem verify_two_primaries_with_standby_counterexample :
    (verify_classify sampleThreeNodeState sampleSplitProbes).count
        POOL_NODE_STATUS_PRIMARY = 2 ∧
    (verify_backend_node_status sampleNoDetachCfg sampleThreeNodeState
        sampleSplitProbes true (fun _ _ => true)).getD 1 POOL_NODE_STATUS_UNUSED =
      POOL_NODE_STATUS_PRIMARY := by
  constructor
  · decide
  · decide

/-- C7 amended: whenever the probe classification yields two or more PRIMARY
backends and no STANDBY, the lowest-indexed primary keeps its PRIMARY
classification and every other primary is marked INVALID when
detach_false_primary is enabled and UNUSED otherwise, the rest staying
unchanged.  (When standbys are present the connectivity check path applies
instead and no such marking happens without detach_false_primary.) -/
theorem verify_multiple_primaries_no_standby
    (cfg : PoolConfig) (st : PoolState) (probes : Nat → ProbeResult)
    (version_ge96 : Bool) (connects : Nat → Nat → Bool)
    (h2 : 2 ≤ (verify_classify st probes).count POOL_NODE_STATUS_PRIMARY)
    (h0 : (verify_classify st probes).count POOL_NODE_STATUS_STANDBY = 0) :
    ∃ k, k < (verify_classify st probes).length ∧
      (verify_classify st probes).getD k POOL_NODE_STATUS_UNUSED =
        POOL_NODE_STATUS_PRIMARY ∧
      (∀ j, j < k → (verify_classify st probes).getD j POOL_NODE_STATUS_UNUSED ≠
        POOL_NODE_STATUS_PRIMARY) ∧
      (verify_backend_node_status cfg st probes version_ge96 connects).getD k
        POOL_NODE_STATUS_UNUSED = POOL_NODE_STATUS_PRIMARY ∧
      (∀ j, j ≠ k →
        (verify_classify st probes).getD j POOL_NODE_STATUS_UNUSED =
          POOL_NODE_STATUS_PRIMARY →
        (verify_backend_node_status cfg st probes version_ge96 connects).getD j
          POOL_NODE_STATUS_UNUSED =
          (if cfg.detach_false_primary then POOL_NODE_STATUS_INVALID
           else POOL_NODE_STATUS_UNUSED)) ∧
      (∀ j, (verify_classify st probes).getD j POOL_NODE_STATUS_UNUSED ≠
          POOL_NODE_STATUS_PRIMARY →
        (verify_backend_node_status cfg st probes version_ge96 connects).getD j
          POOL_NODE_STATUS_UNUSED =
          (verify_classify st probes).getD j POOL_NODE_STATUS_UNUSED) := by
  have hout : verify_backend_node_status cfg st probes version_ge96 connects =
      markFalsePrimaries cfg.detach_false_primary (verify_classify st probes) := by
    unfold verify_backend_node_status
    rw [if_neg (by omega), if_pos h0, if_neg (by omega)]
  rw [hout]
  exact markFalsePrimaries_spec cfg.detach_false_primary (verify_classify st probes)
    (List.count_pos_iff.mp (by omega))

/-- A concrete two node state, both valid, used for the no standby split brain
witness. -/
def sampleTwoNodeState : PoolState :=
  { backends := [⟨CON_UP, false, ROLE_PRIMARY⟩, ⟨CON_UP, false, ROLE_STANDBY⟩],
    main_node_id := 0, primary_node_id := 0 }

/-- Probes reporting both nodes as primaries. -/
def sampleBothPrimaryProbes : Nat → ProbeResult := fun _ => ProbeResult.not_in_recovery

/-- Witness for the amended C7 on a concrete two primary, no standby input. -/
theorem verify_multiple_primaries_no_standby_witness :
    (2 ≤ (verify_classify sampleTwoNodeState sampleBothPrimaryProbes).count
        POOL_NODE_STATUS_PRIMARY ∧
     (verify_classify sampleTwoNodeState sampleBothPrimaryProbes).count
        POOL_NODE_STATUS_STANDBY = 0) ∧
    (∃ k, k < (verify_classify sampleTwoNodeState sampleBothPrimaryProbes).length ∧
      (verify_classify sampleTwoNodeState sampleBothPrimaryProbes).getD k
        POOL_NODE_STATUS_UNUSED = POOL_NODE_STATUS_PRIMARY ∧
      (∀ j, j < k → (verify_classify sampleTwoNodeState sampleBothPrimaryProbes).getD j
        POOL_NODE_STATUS_UNUSED ≠ POOL_NODE_STATUS_PRIMARY) ∧
      (verify_backend_node_status sampleNoDetachCfg sampleTwoNodeState
        sampleBothPrimaryProbes true (fun _ _ => true)).getD k
        POOL_NODE_STATUS_UNUSED = POOL_NODE_STATUS_PRIMARY ∧
      (∀ j, j ≠ k →
        (verify_classify sampleTwoNodeState sampleBothPrimaryProbes).getD j
          POOL_NODE_STATUS_UNUSED = POOL_NODE_STATUS_PRIMARY →
        (verify_backend_node_status sampleNoDetachCfg sampleTwoNodeState
          sampleBothPrimaryProbes true (fun _ _ => true)).getD j
          POOL_NODE_STATUS_UNUSED =
          (if sampleNoDetachCfg.detach_false_primary then POOL_NODE_STATUS_INVALID
           else POOL_NODE_STATUS_UNUSED)) ∧
      (∀ j, (verify_classify sampleTwoNodeState sampleBothPrimaryProbes).getD j
          POOL_NODE_STATUS_UNUSED ≠ POOL_NODE_STATUS_PRIMARY →
        (verify_backend_node_status sampleNoDetachCfg sampleTwoNodeState
          sampleBothPrimaryProbes true (fun _ _ => true)).getD j
          POOL_NODE_STATUS_UNUSED =
          (verify_classify sampleTwoNodeState sampleBothPrimaryProbes).getD j
            POOL_NODE_STATUS_UNUSED)) :=
  ⟨⟨by decide, by decide⟩,
   verify_multiple_primaries_no_standby sampleNoDetachCfg sampleTwoNodeState
     sampleBothPrimaryProbes true (fun _ _ => true) (by decide) (by decide)⟩

/-! ## Lemmas about the failover engine pieces -/

theorem of_valid_backend (st : PoolState) (x : Int) (h : VALID_BACKEND st x = true) :
    ((st.getB x).backend_status = CON_UP ∨
     (st.getB x).backend_status = CON_CONNECT_WAIT) ∧
    (st.getB x).quarantine = false := of_decide_eq_true h

theorem valid_backend_eq_false_of_down (st : PoolState) (x : Int)
    (h : (st.getB x).backend_status = CON_DOWN) : VALID_BACKEND st x = false := by
  simp [VALID_BACKEND, h]

theorem length_degenerate_from (keep : Int) :
    ∀ (k : Nat) (l : List BackendInfo), (degenerate_from keep k l).length = l.length
  | _, [] => rfl
  | k, b :: rest => by
    simp only [degenerate_from, List.length_cons, length_degenerate_from keep (k + 1) rest]

theorem getD_degenerate_from (keep : Int) :
    ∀ (l : List BackendInfo) (k n : Nat),
      (degenerate_from keep k l).getD n default =
        if Int.ofNat (k + n) ≠ keep ∧ n < l.length then
          { l.getD n default with backend_status := CON_DOWN }
        else l.getD n default
  | [], k, n => by
    simp only [degenerate_from]
    rw [if_neg (fun hc => by simpa using hc.2)]
  | b :: rest, k, 0 => by
    simp only [degenerate_from, List.getD_cons_zero]
    by_cases hk : Int.ofNat k = keep
    · rw [if_pos hk, if_neg (fun hc => hc.1 (by simpa using hk))]
    · rw [if_neg hk, if_pos ⟨by simpa using hk, by simp⟩]
  | b :: rest, k, n + 1 => by
    simp only [degenerate_from, List.getD_cons_succ]
    rw [getD_degenerate_from keep rest (k + 1) n]
    have harith : k + 1 + n = k + (n + 1) := by omega
    rw [harith]
    by_cases hc : Int.ofNat (k + (n + 1)) ≠ keep ∧ n < rest.length
    · rw [if_pos hc, if_pos ⟨hc.1, by simpa using hc.2⟩]
    · rw [if_neg hc, if_neg (fun hd => hc ⟨hd.1, by simpa using hd.2⟩)]

theorem length_degenerate_all_except (st : PoolState) (keep : Int) :
    (degenerate_all_except st keep).backends.length = st.backends.length :=
  length_degenerate_from keep 0 st.backends

theorem primary_degenerate_all_except (st : PoolState) (keep : Int) :
    (degenerate_all_except st keep).primary_node_id = st.primary_node_id := rfl

theorem getB_degenerate_all_except (st : PoolState) (keep x : Int) :
    (degenerate_all_except st keep).getB x =
      if x ≠ keep ∧ 0 ≤ x ∧ x.toNat < st.backends.length then
        { st.getB x with backend_status := CON_DOWN }
      else st.getB x := by
  by_cases h0 : 0 ≤ x
  · unfold degenerate_all_except PoolState.getB
    simp only [if_pos h0]
    rw [getD_degenerate_from]
    have hxx : Int.ofNat (0 + x.toNat) = x := by
      rw [Int.ofNat_eq_coe]
      omega
    rw [hxx]
    by_cases hk : x = keep <;> by_cases hl : x.toNat < st.backends.length <;>
      simp [hk, hl, h0]
  · rw [if_neg (fun hc => h0 hc.2.1)]
    unfold degenerate_all_except PoolState.getB
    simp only [if_neg h0]

theorem status_follow_primary_block (cfg : PoolConfig) (req : NodeStateRequest)
    (kr : KindResult) (st5 : PoolState) (np x : Int)
    (hdown : (st5.getB x).backend_status = CON_DOWN) :
    (((follow_primary_block cfg req kr st5 np).1).getB x).backend_status = CON_DOWN ∧
    (((follow_primary_block cfg req kr st5 np).1).getB x).quarantine =
      (st5.getB x).quarantine := by
  unfold follow_primary_block
  split
  · split
    · simp only
      rw [getB_degenerate_all_except]
      split
      · exact ⟨rfl, rfl⟩
      · exact ⟨hdown, rfl⟩
    · exact ⟨hdown, rfl⟩
  · exact ⟨hdown, rfl⟩

theorem length_follow_primary_block (cfg : PoolConfig) (req : NodeStateRequest)
    (kr : KindResult) (st5 : PoolState) (np : Int) :
    ((follow_primary_block cfg req kr st5 np).1).backends.length =
      st5.backends.length := by
  unfold follow_primary_block
  split
  · split
    · exact length_degenerate_all_except st5 np
    · rfl
  · rfl

theorem primary_follow_primary_block (cfg : PoolConfig) (req : NodeStateRequest)
    (kr : KindResult) (st5 : PoolState) (np : Int) :
    ((follow_primary_block cfg req kr st5 np).1).primary_node_id =
      st5.primary_node_id := by
  unfold follow_primary_block
  split
  · split
    · exact primary_degenerate_all_except st5 np
    · rfl
  · rfl

theorem follow_primary_block_not_down_promote (cfg : PoolConfig)
    (req : NodeStateRequest) (kr : KindResult) (st5 : PoolState) (np : Int)
    (h1 : req.kind ≠ NODE_DOWN_REQUEST) (h2 : req.kind ≠ PROMOTE_NODE_REQUEST) :
    follow_primary_block cfg req kr st5 np = (st5, 0) := by
  unfold follow_primary_block
  rw [if_neg]
  rintro ⟨-, -, h | h | h⟩
  · exact h1 h.1
  · exact h1 h.1
  · exact h2 h.2.1

theorem follow_primary_block_down_standby (cfg : PoolConfig)
    (req : NodeStateRequest) (kr : KindResult) (st5 : PoolState) (np : Int)
    (hkind : req.kind = NODE_DOWN_REQUEST)
    (hp : 0 ≤ st5.primary_node_id) (hnotin : st5.primary_node_id ∉ kr.nodes) :
    follow_primary_block cfg req kr st5 np = (st5, 0) := by
  unfold follow_primary_block
  rw [if_neg]
  rintro ⟨-, -, h | h | h⟩
  · exact hnotin h.2.2
  · omega
  · rw [hkind] at h
    cases h.2.1

theorem determine_new_primary_frame (cfg : PoolConfig) (req : NodeStateRequest)
    (kr : KindResult) (probe : Int) (x : Int) :
    (((determine_new_primary cfg req kr probe).1).getB x).backend_status =
      (kr.st.getB x).backend_status ∧
    (((determine_new_primary cfg req kr probe).1).getB x).quarantine =
      (kr.st.getB x).quarantine ∧
    ((determine_new_primary cfg req kr probe).1).backends.length =
      kr.st.backends.length ∧
    ((determine_new_primary cfg req kr probe).1).primary_node_id =
      kr.st.primary_node_id := by
  unfold determine_new_primary
  split
  · exact ⟨rfl, rfl, rfl, rfl⟩
  · split
    · split
      · exact ⟨status_getB_setRole .., quarantine_getB_setRole .., length_setRole ..,
          primary_setRole ..⟩
      · split
        · exact ⟨rfl, rfl, rfl, rfl⟩
        · exact ⟨rfl, rfl, rfl, rfl⟩
    · split
      · split
        · exact ⟨rfl, rfl, rfl, rfl⟩
        · split
          · exact ⟨status_getB_setRole .., quarantine_getB_setRole .., length_setRole ..,
              primary_setRole ..⟩
          · exact ⟨rfl, rfl, rfl, rfl⟩
      · split
        · exact ⟨rfl, rfl, rfl, rfl⟩
        · exact ⟨rfl, rfl, rfl, rfl⟩

theorem primary_save_primary_node (st6 : PoolState) (np : Int) :
    (save_primary_node st6 np).primary_node_id = np := rfl

theorem status_save_primary_node (st6 : PoolState) (np x : Int) :
    ((save_primary_node st6 np).getB x).backend_status =
      (st6.getB x).backend_status ∧
    ((save_primary_node st6 np).getB x).quarantine = (st6.getB x).quarantine ∧
    (save_primary_node st6 np).backends.length = st6.backends.length := by
  unfold save_primary_node
  split
  · exact ⟨status_getB_setRole .., quarantine_getB_setRole .., length_setRole ..⟩
  · exact ⟨rfl, rfl, rfl⟩

theorem determine_new_primary_node_up (cfg : PoolConfig) (req : NodeStateRequest)
    (kr : KindResult) (probe : Int) (hkind : req.kind = NODE_UP_REQUEST) :
    determine_new_primary cfg req kr probe =
      (if kr.search_primary = false then (kr.st, kr.st.primary_node_id, false)
       else (kr.st, probe, true)) := by
  unfold determine_new_primary
  rw [if_neg (by rw [hkind]; rintro ⟨h, -⟩; cases h),
    if_neg (by rw [hkind]; rintro h; cases h),
    if_neg (by rw [hkind]; rintro ⟨-, h⟩; cases h)]

theorem determine_new_primary_down_standby (cfg : PoolConfig)
    (req : NodeStateRequest) (kr : KindResult) (probe : Int)
    (hkind : req.kind = NODE_DOWN_REQUEST) (hsl : SL_MODE cfg)
    (hp : 0 ≤ kr.st.primary_node_id)
    (hne : kr.st.primary_node_id ≠ fo_node_id req) :
    determine_new_primary cfg req kr probe = (kr.st, kr.st.primary_node_id, false) := by
  unfold determine_new_primary
  rw [if_neg (by rw [hkind]; rintro ⟨h, -⟩; cases h),
    if_neg (by rw [hkind]; rintro h; cases h),
    if_pos ⟨hsl, hkind⟩, if_pos ⟨hp, hne⟩]

theorem determine_new_primary_quarantine_primary (cfg : PoolConfig)
    (req : NodeStateRequest) (kr : KindResult) (probe : Int)
    (hkind : req.kind = NODE_QUARANTINE_REQUEST)
    (hpeq : kr.st.primary_node_id = fo_node_id req) :
    determine_new_primary cfg req kr probe =
      (kr.st.setRole (fo_node_id req) ROLE_PRIMARY, -1, false) := by
  unfold determine_new_primary
  rw [if_neg (by rw [hkind]; rintro ⟨h, -⟩; cases h), if_pos hkind, if_pos hpeq]

/-- failover_one_request reduces to failover_common on an accepted request. -/
theorem failover_one_request_eq_common (cfg : PoolConfig) (st0 : PoolState)
    (req : NodeStateRequest) (probe : Int) (kr : KindResult)
    (h : failover_apply_kind cfg st0 req = some kr) :
    failover_one_request cfg st0 req probe = failover_common cfg req kr probe := by
  unfold failover_one_request
  rw [h]

theorem failover_common_node_up_no_search (cfg : PoolConfig)
    (req : NodeStateRequest) (kr : KindResult) (probe : Int)
    (hkind : req.kind = NODE_UP_REQUEST) (hsp : kr.search_primary = false) :
    (failover_common cfg req kr probe).1.primary_node_id = kr.st.primary_node_id ∧
    (∀ j, (failover_common cfg req kr probe).1.getB j = kr.st.getB j) ∧
    (failover_common cfg req kr probe).2.ran_failback_command =
      kr.ran_failback_command ∧
    (failover_common cfg req kr probe).2.invoked_find_primary = false := by
  have hdet : determine_new_primary cfg req kr probe =
      (kr.st, kr.st.primary_node_id, false) := by
    rw [determine_new_primary_node_up cfg req kr probe hkind, if_pos hsp]
  have hfd : fo_after_follow cfg req kr probe = (kr.st, 0) := by
    unfold fo_after_follow
    rw [hdet]
    exact follow_primary_block_not_down_promote cfg req kr kr.st
      kr.st.primary_node_id (by rw [hkind]; intro h; cases h)
      (by rw [hkind]; intro h; cases h)
  have hsave : save_primary_node (fo_after_follow cfg req kr probe).1
      (determine_new_primary cfg req kr probe).2.1 =
      { kr.st with primary_node_id := kr.st.primary_node_id } := by
    rw [hdet, hfd]
    unfold save_primary_node
    rw [if_neg (by rintro ⟨h, -⟩; exact h rfl)]
  refine ⟨?_, ?_, rfl, ?_⟩
  · show (fo_final_state cfg req kr probe).primary_node_id = _
    unfold fo_final_state
    rw [hsave]
    split <;> rfl
  · intro j
    show (fo_final_state cfg req kr probe).getB j = _
    unfold fo_final_state
    rw [hsave]
    split <;> rfl
  · show (determine_new_primary cfg req kr probe).2.2 = false
    rw [hdet]

theorem failover_common_node_up_search (cfg : PoolConfig)
    (req : NodeStateRequest) (kr : KindResult) (probe : Int)
    (hkind : req.kind = NODE_UP_REQUEST) (hsp : kr.search_primary = true) :
    (failover_common cfg req kr probe).1.primary_node_id = probe ∧
    (∀ j, ((failover_common cfg req kr probe).1.getB j).backend_status =
      (kr.st.getB j).backend_status ∧
      ((failover_common cfg req kr probe).1.getB j).quarantine =
      (kr.st.getB j).quarantine) ∧
    (failover_common cfg req kr probe).2.ran_failback_command =
      kr.ran_failback_command ∧
    (failover_common cfg req kr probe).2.invoked_find_primary = true := by
  have hdet : determine_new_primary cfg req kr probe = (kr.st, probe, true) := by
    rw [determine_new_primary_node_up cfg req kr probe hkind,
      if_neg (by rw [hsp]; intro h; cases h)]
  have hfd : fo_after_follow cfg req kr probe = (kr.st, 0) := by
    unfold fo_after_follow
    rw [hdet]
    exact follow_primary_block_not_down_promote cfg req kr kr.st probe
      (by rw [hkind]; intro h; cases h) (by rw [hkind]; intro h; cases h)
  refine ⟨?_, ?_, rfl, ?_⟩
  · show (fo_final_state cfg req kr probe).primary_node_id = _
    unfold fo_final_state
    rw [hdet, hfd]
    have := primary_save_primary_node kr.st probe
    split
    · simpa using this
    · simpa using this
  · intro j
    show ((fo_final_state cfg req kr probe).getB j).backend_status = _ ∧
      ((fo_final_state cfg req kr probe).getB j).quarantine = _
    unfold fo_final_state
    rw [hdet, hfd]
    have hst := status_save_primary_node kr.st probe j
    split
    · exact ⟨hst.1, hst.2.1⟩
    · exact ⟨hst.1, hst.2.1⟩
  · show (determine_new_primary cfg req kr probe).2.2 = true
    rw [hdet]

theorem failover_common_down_standby (cfg : PoolConfig)
    (req : NodeStateRequest) (kr : KindResult) (probe : Int)
    (hkind : req.kind = NODE_DOWN_REQUEST) (hsl : SL_MODE cfg)
    (hp : 0 ≤ kr.st.primary_node_id)
    (hne : kr.st.primary_node_id ≠ fo_node_id req)
    (hnotin : kr.st.primary_node_id ∉ kr.nodes) :
    (failover_common cfg req kr probe).1.primary_node_id = kr.st.primary_node_id ∧
    (∀ j, (failover_common cfg req kr probe).1.getB j = kr.st.getB j) ∧
    (failover_common cfg req kr probe).2.invoked_find_primary = false := by
  have hdet : determine_new_primary cfg req kr probe =
      (kr.st, kr.st.primary_node_id, false) :=
    determine_new_primary_down_standby cfg req kr probe hkind hsl hp hne
  have hfd : fo_after_follow cfg req kr probe = (kr.st, 0) := by
    unfold fo_after_follow
    rw [hdet]
    exact follow_primary_block_down_standby cfg req kr kr.st
      kr.st.primary_node_id hkind hp hnotin
  have hsave : save_primary_node (fo_after_follow cfg req kr probe).1
      (determine_new_primary cfg req kr probe).2.1 =
      { kr.st with primary_node_id := kr.st.primary_node_id } := by
    rw [hdet, hfd]
    unfold save_primary_node
    rw [if_neg (by rintro ⟨h, -⟩; exact h rfl)]
  refine ⟨?_, ?_, ?_⟩
  · show (fo_final_state cfg req kr probe).primary_node_id = _
    unfold fo_final_state
    rw [hsave]
    split <;> rfl
  · intro j
    show (fo_final_state cfg req kr probe).getB j = _
    unfold fo_final_state
    rw [hsave]
    split <;> rfl
  · show (determine_new_primary cfg req kr probe).2.2 = false
    rw [hdet]

theorem failover_common_quarantine_primary (cfg : PoolConfig)
    (req : NodeStateRequest) (kr : KindResult) (probe : Int)
    (hkind : req.kind = NODE_QUARANTINE_REQUEST)
    (hpeq : kr.st.primary_node_id = fo_node_id req) :
    (failover_common cfg req kr probe).1.primary_node_id = -1 ∧
    (∀ j, (failover_common cfg req kr probe).1.getB j =
      (kr.st.setRole (fo_node_id req) ROLE_PRIMARY).getB j) ∧
    (failover_common cfg req kr probe).1.backends.length =
      kr.st.backends.length := by
  have hdet : determine_new_primary cfg req kr probe =
      (kr.st.setRole (fo_node_id req) ROLE_PRIMARY, -1, false) :=
    determine_new_primary_quarantine_primary cfg req kr probe hkind hpeq
  have hfd : fo_after_follow cfg req kr probe =
      (kr.st.setRole (fo_node_id req) ROLE_PRIMARY, 0) := by
    unfold fo_after_follow
    rw [hdet]
    exact follow_primary_block_not_down_promote cfg req kr _ _
      (by rw [hkind]; intro h; cases h) (by rw [hkind]; intro h; cases h)
  have hsave : save_primary_node (fo_after_follow cfg req kr probe).1
      (determine_new_primary cfg req kr probe).2.1 =
      { kr.st.setRole (fo_node_id req) ROLE_PRIMARY with primary_node_id := -1 } := by
    rw [hdet, hfd]
    unfold save_primary_node
    rw [if_neg (by rintro ⟨-, h⟩; simp at h)]
  refine ⟨?_, ?_, ?_⟩
  · show (fo_final_state cfg req kr probe).primary_node_id = _
    unfold fo_final_state
    rw [hsave]
    split <;> rfl
  · intro j
    show (fo_final_state cfg req kr probe).getB j = _
    unfold fo_final_state
    rw [hsave]
    split <;> rfl
  · show (fo_final_state cfg req kr probe).backends.length = _
    unfold fo_final_state
    rw [hsave]
    split <;> exact length_setRole ..

theorem failover_common_down_frame (cfg : PoolConfig) (req : NodeStateRequest)
    (kr : KindResult) (probe : Int) (x : Int)
    (hdown : (kr.st.getB x).backend_status = CON_DOWN) :
    (((failover_common cfg req kr probe).1).getB x).backend_status = CON_DOWN ∧
    (((failover_common cfg req kr probe).1).getB x).quarantine =
      (kr.st.getB x).quarantine ∧
    (failover_common cfg req kr probe).1.backends.length =
      kr.st.backends.length := by
  obtain ⟨hds, hdq, hdl, _⟩ := determine_new_primary_frame cfg req kr probe x
  have hfs := status_follow_primary_block cfg req kr
    (determine_new_primary cfg req kr probe).1
    (determine_new_primary cfg req kr probe).2.1 x (by rw [hds]; exact hdown)
  have hfl := length_follow_primary_block cfg req kr
    (determine_new_primary cfg req kr probe).1
    (determine_new_primary cfg req kr probe).2.1
  have hss := status_save_primary_node (fo_after_follow cfg req kr probe).1
    (determine_new_primary cfg req kr probe).2.1 x
  refine ⟨?_, ?_, ?_⟩
  · show ((fo_final_state cfg req kr probe).getB x).backend_status = CON_DOWN
    unfold fo_final_state
    split
    · show ((save_primary_node _ _).getB x).backend_status = CON_DOWN
      rw [hss.1]
      exact hfs.1
    · rw [hss.1]
      exact hfs.1
  · show ((fo_final_state cfg req kr probe).getB x).quarantine = _
    unfold fo_final_state
    split
    · show ((save_primary_node _ _).getB x).quarantine = _
      rw [hss.2.1]
      rw [show (fo_after_follow cfg req kr probe).1 =
        (follow_primary_block cfg req kr (determine_new_primary cfg req kr probe).1
          (determine_new_primary cfg req kr probe).2.1).1 from rfl]
      rw [hfs.2, hdq]
    · rw [hss.2.1]
      rw [show (fo_after_follow cfg req kr probe).1 =
        (follow_primary_block cfg req kr (determine_new_primary cfg req kr probe).1
          (determine_new_primary cfg req kr probe).2.1).1 from rfl]
      rw [hfs.2, hdq]
  · show (fo_final_state cfg req kr probe).backends.length = _
    unfold fo_final_state
    split
    · show (save_primary_node _ _).backends.length = _
      rw [hss.2.2]
      rw [show (fo_after_follow cfg req kr probe).1 =
        (follow_primary_block cfg req kr (determine_new_primary cfg req kr probe).1
          (determine_new_primary cfg req kr probe).2.1).1 from rfl]
      rw [hfl, hdl]
    · rw [hss.2.2]
      rw [show (fo_after_follow cfg req kr probe).1 =
        (follow_primary_block cfg req kr (determine_new_primary cfg req kr probe).1
          (determine_new_primary cfg req kr probe).2.1).1 from rfl]
      rw [hfl, hdl]

theorem failover_apply_kind_node_up_update_qprimary
    (cfg : PoolConfig) (st0 : PoolState) (x : Int) (flags : RequestDetails)
    (hx0 : 0 ≤ x) (hxlen : x.toNat < st0.backends.length)
    (hxcap : x < MAX_NUM_BACKENDS)
    (hb : st0.getB x = ⟨CON_DOWN, true, ROLE_PRIMARY⟩)
    (hp : st0.primary_node_id = -1)
    (hupd : flags.update = true) :
    ∃ kr, failover_apply_kind cfg st0 ⟨NODE_UP_REQUEST, [x], flags⟩ = some kr ∧
      kr.search_primary = false ∧ kr.ran_failback_command = false ∧
      kr.st.primary_node_id = x ∧
      kr.st.getB x = ⟨CON_CONNECT_WAIT, false, ROLE_PRIMARY⟩ ∧
      kr.st.backends.length = st0.backends.length := by
  have hvalid_false : VALID_BACKEND st0 x = false := by
    simp [VALID_BACKEND, hb]
  have hg1 : (st0.setStatus x CON_CONNECT_WAIT).getB x =
      ⟨CON_CONNECT_WAIT, true, ROLE_PRIMARY⟩ := by
    rw [getB_setStatus, if_pos ⟨rfl, hx0, hxlen⟩, hb]
  have hg2 : ((st0.setStatus x CON_CONNECT_WAIT).setQuarantine x false).getB x =
      ⟨CON_CONNECT_WAIT, false, ROLE_PRIMARY⟩ := by
    rw [getB_setQuarantine,
      if_pos ⟨rfl, hx0, by rw [length_setStatus]; exact hxlen⟩, hg1]
  simp only [failover_apply_kind, List.headD_cons, reduceCtorEq, if_true, if_false,
    ite_true, ite_false]
  rw [if_neg (show ¬(x < 0 ∨ MAX_NUM_BACKENDS ≤ x ∨
      (¬(RAW_MODE cfg ∧ (st0.getB x).backend_status = CON_DOWN) ∧
       VALID_BACKEND st0 x = true)) by
    rintro (h | h | h)
    · omega
    · omega
    · rw [hvalid_false] at h
      cases h.2)]
  rw [if_pos hupd]
  split
  · refine ⟨_, rfl, rfl, rfl, rfl, ?_, ?_⟩
    · exact hg2
    · show (((st0.setStatus x CON_CONNECT_WAIT).setQuarantine x false).backends.length) =
        st0.backends.length
      rw [length_setQuarantine, length_setStatus]
  · rename_i hcond
    exfalso
    apply hcond
    constructor
    · show ((st0.setStatus x CON_CONNECT_WAIT).setQuarantine x false).primary_node_id = -1
      rw [primary_setQuarantine, primary_setStatus, hp]
    · show (((st0.setStatus x CON_CONNECT_WAIT).setQuarantine x false).getB x).role =
        ROLE_PRIMARY
      rw [hg2]

theorem failover_apply_kind_node_up_plain
    (cfg : PoolConfig) (st0 : PoolState) (x : Int) (flags : RequestDetails)
    (hx0 : 0 ≤ x) (hxcap : x < MAX_NUM_BACKENDS)
    (hdown : (st0.getB x).backend_status = CON_DOWN)
    (hnoupd : flags.update = false) :
    failover_apply_kind cfg st0 ⟨NODE_UP_REQUEST, [x], flags⟩ =
      some ⟨st0.setStatus x CON_CONNECT_WAIT, true, check_all_backend_down st0,
            [], true, false, true⟩ := by
  have hvalid_false : VALID_BACKEND st0 x = false :=
    valid_backend_eq_false_of_down st0 x hdown
  simp only [failover_apply_kind, List.headD_cons, reduceCtorEq, if_true, if_false,
    ite_true, ite_false]
  rw [if_neg (show ¬(x < 0 ∨ MAX_NUM_BACKENDS ≤ x ∨
      (¬(RAW_MODE cfg ∧ (st0.getB x).backend_status = CON_DOWN) ∧
       VALID_BACKEND st0 x = true)) by
    rintro (h | h | h)
    · omega
    · omega
    · rw [hvalid_false] at h
      cases h.2)]
  rw [if_neg (show ¬(flags.update = true) by rw [hnoupd]; intro h; cases h)]

theorem failover_apply_kind_quarantine_valid
    (cfg : PoolConfig) (st0 : PoolState) (x : Int) (flags : RequestDetails)
    (hx0 : 0 ≤ x)
    (hv : VALID_BACKEND st0 x = true) :
    failover_apply_kind cfg st0 ⟨NODE_QUARANTINE_REQUEST, [x], flags⟩ =
      some ⟨(st0.setStatus x CON_DOWN).setQuarantine x true, true, true, [x],
            true, false, false⟩ := by
  simp only [failover_apply_kind, List.headD_cons, List.foldl_cons, List.foldl_nil,
    reduceCtorEq, if_true, if_false, ite_true, ite_false]
  rw [if_pos (show x ≠ -1 ∧ ((st0.getB x).quarantine = true ∨
      (RAW_MODE cfg ∧ VALID_BACKEND_RAW st0 x = true) ∨
      VALID_BACKEND st0 x = true) from ⟨by omega, Or.inr (Or.inr hv)⟩)]
  rw [if_neg (show ¬(([] : List Int) ++ [x] = []) by simp)]
  simp only [List.nil_append]

theorem failover_apply_kind_node_down_valid
    (cfg : PoolConfig) (st0 : PoolState) (x : Int) (flags : RequestDetails)
    (hx0 : 0 ≤ x)
    (hv : VALID_BACKEND st0 x = true) :
    failover_apply_kind cfg st0 ⟨NODE_DOWN_REQUEST, [x], flags⟩ =
      some ⟨(st0.setStatus x CON_DOWN).setQuarantine x false, true, true, [x],
            true, false, false⟩ := by
  have hq : (st0.getB x).quarantine = false := (of_valid_backend st0 x hv).2
  simp only [failover_apply_kind, List.headD_cons, List.foldl_cons, List.foldl_nil,
    reduceCtorEq, if_true, if_false, ite_true, ite_false]
  rw [if_pos (show x ≠ -1 ∧ ((st0.getB x).quarantine = true ∨
      (RAW_MODE cfg ∧ VALID_BACKEND_RAW st0 x = true) ∨
      VALID_BACKEND st0 x = true) from ⟨by omega, Or.inr (Or.inr hv)⟩)]
  rw [if_neg (show ¬((st0.setStatus x CON_DOWN).primary_node_id = -1 ∧
      ((st0.setStatus x CON_DOWN).getB x).quarantine = true ∧
      ((st0.setStatus x CON_DOWN).getB x).role = ROLE_PRIMARY) by
    rintro ⟨-, h, -⟩
    rw [getB_setStatus] at h
    by_cases hin : x = x ∧ 0 ≤ x ∧ x.toNat < st0.backends.length
    · rw [if_pos hin] at h
      simp only at h
      rw [hq] at h
      cases h
    · rw [if_neg hin] at h
      rw [hq] at h
      cases h)]
  rw [if_neg (show ¬(([] : List Int) ++ [x] = []) by simp)]
  simp only [List.nil_append]

/-! ## Claim C6: NODE_DOWN of a standby keeps the primary -/

/-- C6: in streaming replication mode, processing NODE_DOWN for a valid node
that is not the current primary while a primary exists leaves primary_node_id
unchanged and does not invoke the primary finder probe round; the node itself
goes to DOWN. -/
theorem node_down_standby_keeps_primary
    (cfg : PoolConfig) (st0 : PoolState) (x : Int) (flags : RequestDetails)
    (probe : Int)
    (hmode : cfg.mode = ClusteringMode.stream)
    (hx0 : 0 ≤ x) (hxlen : x.toNat < st0.backends.length)
    (hv : VALID_BACKEND st0 x = true)
    (hp0 : 0 ≤ st0.primary_node_id) (hpne : st0.primary_node_id ≠ x) :
    (failover_one_request cfg st0 ⟨NODE_DOWN_REQUEST, [x], flags⟩ probe).1.primary_node_id =
      st0.primary_node_id ∧
    (failover_one_request cfg st0
        ⟨NODE_DOWN_REQUEST, [x], flags⟩ probe).2.invoked_find_primary = false ∧
    ((failover_one_request cfg st0
        ⟨NODE_DOWN_REQUEST, [x], flags⟩ probe).1.getB x).backend_status = CON_DOWN := by
  have hkap := failover_apply_kind_node_down_valid cfg st0 x flags hx0 hv
  have heq := failover_one_request_eq_common cfg st0 ⟨NODE_DOWN_REQUEST, [x], flags⟩
    probe _ hkap
  rw [heq]
  have hkrp : (((st0.setStatus x CON_DOWN).setQuarantine x false)).primary_node_id =
      st0.primary_node_id := by
    rw [primary_setQuarantine, primary_setStatus]
  have hkgx : (((st0.setStatus x CON_DOWN).setQuarantine x false)).getB x =
      { st0.getB x with backend_status := CON_DOWN, quarantine := false } := by
    rw [getB_setQuarantine,
      if_pos ⟨rfl, hx0, by rw [length_setStatus]; exact hxlen⟩,
      getB_setStatus, if_pos ⟨rfl, hx0, hxlen⟩]
  have hc := failover_common_down_standby cfg ⟨NODE_DOWN_REQUEST, [x], flags⟩
    ⟨(st0.setStatus x CON_DOWN).setQuarantine x false, true, true, [x],
     true, false, false⟩ probe rfl (Or.inl hmode)
    (by show (((st0.setStatus x CON_DOWN).setQuarantine x false)).primary_node_id ≥ 0
        rw [hkrp]; exact hp0)
    (by show (((st0.setStatus x CON_DOWN).setQuarantine x false)).primary_node_id ≠
          fo_node_id ⟨NODE_DOWN_REQUEST, [x], flags⟩
        rw [hkrp]; exact hpne)
    (by show (((st0.setStatus x CON_DOWN).setQuarantine x false)).primary_node_id ∉ [x]
        rw [hkrp]
        intro hmem
        exact hpne (List.mem_singleton.mp hmem))
  refine ⟨?_, hc.2.2, ?_⟩
  · rw [hc.1]
    exact hkrp
  · rw [hc.2.1 x, hkgx]

/-- Witness for C6: a two node cluster, node 0 primary, NODE_DOWN of node 1. -/
theorem node_down_standby_keeps_primary_witness :
    (sampleTwoNodeState.backends.length = 2 ∧
     VALID_BACKEND sampleTwoNodeState 1 = true ∧
     sampleTwoNodeState.primary_node_id = 0) ∧
    ((failover_one_request ⟨ClusteringMode.stream, false, false⟩ sampleTwoNodeState
        ⟨NODE_DOWN_REQUEST, [1], default⟩ 0).1.primary_node_id =
      sampleTwoNodeState.primary_node_id ∧
     (failover_one_request ⟨ClusteringMode.stream, false, false⟩ sampleTwoNodeState
        ⟨NODE_DOWN_REQUEST, [1], default⟩ 0).2.invoked_find_primary = false ∧
     ((failover_one_request ⟨ClusteringMode.stream, false, false⟩ sampleTwoNodeState
        ⟨NODE_DOWN_REQUEST, [1], default⟩ 0).1.getB 1).backend_status = CON_DOWN) :=
  ⟨⟨rfl, by decide, rfl⟩,
   node_down_standby_keeps_primary ⟨ClusteringMode.stream, false, false⟩
     sampleTwoNodeState 1 default 0 rfl (by decide) (by decide) (by decide)
     (by decide) (by decide)⟩

/-! ## Claim C5: NODE_DOWN(x) then NODE_UP(x) leaves CONNECT_WAIT -/

/-- C5: for a valid node x, processing NODE_DOWN(x) sets status[x] to DOWN;
processing NODE_UP(x) afterwards (without the UPDATE flag) leaves status[x] at
CONNECT_WAIT whatever the primary finder answers, and the new primary_node_id is
exactly the probe result - the failback itself does not auto promote the node. -/
theorem node_down_then_node_up_connect_wait
    (cfg : PoolConfig) (st0 : PoolState) (x : Int)
    (flagsD flagsU : RequestDetails) (probeD probeU : Int)
    (hmode : cfg.mode = ClusteringMode.stream)
    (hx0 : 0 ≤ x) (hxlen : x.toNat < st0.backends.length)
    (hcap : (st0.backends.length : Int) ≤ MAX_NUM_BACKENDS)
    (hv : VALID_BACKEND st0 x = true)
    (hnoupd : flagsU.update = false) :
    (((failover_one_request cfg st0
        ⟨NODE_DOWN_REQUEST, [x], flagsD⟩ probeD).1.getB x).backend_status =
      CON_DOWN) ∧
    ((((failover_one_request cfg
        (failover_one_request cfg st0 ⟨NODE_DOWN_REQUEST, [x], flagsD⟩ probeD).1
        ⟨NODE_UP_REQUEST, [x], flagsU⟩ probeU).1).getB x).backend_status =
      CON_CONNECT_WAIT) ∧
    ((failover_one_request cfg
        (failover_one_request cfg st0 ⟨NODE_DOWN_REQUEST, [x], flagsD⟩ probeD).1
        ⟨NODE_UP_REQUEST, [x], flagsU⟩ probeU).1.primary_node_id = probeU) ∧
    ((failover_one_request cfg
        (failover_one_request cfg st0 ⟨NODE_DOWN_REQUEST, [x], flagsD⟩ probeD).1
        ⟨NODE_UP_REQUEST, [x], flagsU⟩ probeU).2.invoked_find_primary = true) := by
  -- step 1: the NODE_DOWN request
  have hkap1 := failover_apply_kind_node_down_valid cfg st0 x flagsD hx0 hv
  have heq1 := failover_one_request_eq_common cfg st0
    ⟨NODE_DOWN_REQUEST, [x], flagsD⟩ probeD _ hkap1
  have hkgx : (((st0.setStatus x CON_DOWN).setQuarantine x false)).getB x =
      { st0.getB x with backend_status := CON_DOWN, quarantine := false } := by
    rw [getB_setQuarantine,
      if_pos ⟨rfl, hx0, by rw [length_setStatus]; exact hxlen⟩,
      getB_setStatus, if_pos ⟨rfl, hx0, hxlen⟩]
  have hklen : (((st0.setStatus x CON_DOWN).setQuarantine x false)).backends.length =
      st0.backends.length := by
    rw [length_setQuarantine, length_setStatus]
  have hframe := failover_common_down_frame cfg ⟨NODE_DOWN_REQUEST, [x], flagsD⟩
    ⟨(st0.setStatus x CON_DOWN).setQuarantine x false, true, true, [x],
     true, false, false⟩ probeD x (by rw [hkgx])
  rw [← heq1] at hframe
  have hlen1 : (failover_one_request cfg st0
      ⟨NODE_DOWN_REQUEST, [x], flagsD⟩ probeD).1.backends.length =
      st0.backends.length := by
    rw [hframe.2.2]
    exact hklen
  -- step 2: the NODE_UP request without UPDATE
  have hkap2 := failover_apply_kind_node_up_plain cfg
    (failover_one_request cfg st0 ⟨NODE_DOWN_REQUEST, [x], flagsD⟩ probeD).1
    x flagsU hx0 (by omega) hframe.1 hnoupd
  have heq2 := failover_one_request_eq_common cfg
    (failover_one_request cfg st0 ⟨NODE_DOWN_REQUEST, [x], flagsD⟩ probeD).1
    ⟨NODE_UP_REQUEST, [x], flagsU⟩ probeU _ hkap2
  have hc2 := failover_common_node_up_search cfg ⟨NODE_UP_REQUEST, [x], flagsU⟩
    ⟨(failover_one_request cfg st0
        ⟨NODE_DOWN_REQUEST, [x], flagsD⟩ probeD).1.setStatus x CON_CONNECT_WAIT,
      true,
      check_all_backend_down (failover_one_request cfg st0
        ⟨NODE_DOWN_REQUEST, [x], flagsD⟩ probeD).1,
      [], true, false, true⟩ probeU rfl rfl
  rw [← heq2] at hc2
  refine ⟨hframe.1, ?_, hc2.1, hc2.2.2.2⟩
  rw [(hc2.2.1 x).1]
  show (((failover_one_request cfg st0
      ⟨NODE_DOWN_REQUEST, [x], flagsD⟩ probeD).1.setStatus x
        CON_CONNECT_WAIT).getB x).backend_status = CON_CONNECT_WAIT
  rw [getB_setStatus, if_pos ⟨rfl, hx0, by rw [hlen1]; exact hxlen⟩]

/-- Witness for C5: a two node cluster, node 1 goes down then comes back. -/
theorem node_down_then_node_up_connect_wait_witness :
    (VALID_BACKEND sampleTwoNodeState 1 = true ∧
     (default : RequestDetails).update = false) ∧
    ((((failover_one_request ⟨ClusteringMode.stream, false, false⟩ sampleTwoNodeState
        ⟨NODE_DOWN_REQUEST, [1], default⟩ 0).1.getB 1).backend_status = CON_DOWN) ∧
     ((((failover_one_request ⟨ClusteringMode.stream, false, false⟩
        (failover_one_request ⟨ClusteringMode.stream, false, false⟩ sampleTwoNodeState
          ⟨NODE_DOWN_REQUEST, [1], default⟩ 0).1
        ⟨NODE_UP_REQUEST, [1], default⟩ 0).1).getB 1).backend_status =
       CON_CONNECT_WAIT) ∧
     ((failover_one_request ⟨ClusteringMode.stream, false, false⟩
        (failover_one_request ⟨ClusteringMode.stream, false, false⟩ sampleTwoNodeState
          ⟨NODE_DOWN_REQUEST, [1], default⟩ 0).1
        ⟨NODE_UP_REQUEST, [1], default⟩ 0).1.primary_node_id = 0) ∧
     ((failover_one_request ⟨ClusteringMode.stream, false, false⟩
        (failover_one_request ⟨ClusteringMode.stream, false, false⟩ sampleTwoNodeState
          ⟨NODE_DOWN_REQUEST, [1], default⟩ 0).1
        ⟨NODE_UP_REQUEST, [1], default⟩ 0).2.invoked_find_primary = true)) :=
  ⟨⟨by decide, rfl⟩,
   node_down_then_node_up_connect_wait ⟨ClusteringMode.stream, false, false⟩
     sampleTwoNodeState 1 default default 0 0 rfl (by decide) (by decide)
     (by decide) (by decide) rfl⟩

/-! ## Claim C4: quarantined former primary restored by NODE_UP with UPDATE -/

/-- C4: quarantining the current primary x records its PRIMARY role and sets
primary_node_id to -1; a later NODE_UP(x) carrying the UPDATE flag clears the
quarantine flag, sets status[x] to CONNECT_WAIT, restores primary_node_id to x,
and neither runs the failback command nor performs primary rediscovery. -/
theorem quarantine_then_update_failback_restores_primary
    (cfg : PoolConfig) (st0 : PoolState) (x : Int)
    (flagsQ flagsU : RequestDetails) (probeQ probeU : Int)
    (hmode : cfg.mode = ClusteringMode.stream)
    (hx0 : 0 ≤ x) (hxlen : x.toNat < st0.backends.length)
    (hcap : (st0.backends.length : Int) ≤ MAX_NUM_BACKENDS)
    (hv : VALID_BACKEND st0 x = true)
    (hprim : st0.primary_node_id = x)
    (hupd : flagsU.update = true) :
    ((failover_one_request cfg st0
        ⟨NODE_QUARANTINE_REQUEST, [x], flagsQ⟩ probeQ).1.getB x =
      ⟨CON_DOWN, true, ROLE_PRIMARY⟩) ∧
    ((failover_one_request cfg st0
        ⟨NODE_QUARANTINE_REQUEST, [x], flagsQ⟩ probeQ).1.primary_node_id = -1) ∧
    (((failover_one_request cfg
        (failover_one_request cfg st0 ⟨NODE_QUARANTINE_REQUEST, [x], flagsQ⟩ probeQ).1
        ⟨NODE_UP_REQUEST, [x], flagsU⟩ probeU).1.getB x).quarantine = false) ∧
    (((failover_one_request cfg
        (failover_one_request cfg st0 ⟨NODE_QUARANTINE_REQUEST, [x], flagsQ⟩ probeQ).1
        ⟨NODE_UP_REQUEST, [x], flagsU⟩ probeU).1.getB x).backend_status =
      CON_CONNECT_WAIT) ∧
    ((failover_one_request cfg
        (failover_one_request cfg st0 ⟨NODE_QUARANTINE_REQUEST, [x], flagsQ⟩ probeQ).1
        ⟨NODE_UP_REQUEST, [x], flagsU⟩ probeU).1.primary_node_id = x) ∧
    ((failover_one_request cfg
        (failover_one_request cfg st0 ⟨NODE_QUARANTINE_REQUEST, [x], flagsQ⟩ probeQ).1
        ⟨NODE_UP_REQUEST, [x], flagsU⟩ probeU).2.ran_failback_command = false) ∧
    ((failover_one_request cfg
        (failover_one_request cfg st0 ⟨NODE_QUARANTINE_REQUEST, [x], flagsQ⟩ probeQ).1
        ⟨NODE_UP_REQUEST, [x], flagsU⟩ probeU).2.invoked_find_primary = false) := by
  -- step 1: the quarantine request on the current primary
  have hkap1 := failover_apply_kind_quarantine_valid cfg st0 x flagsQ hx0 hv
  have heq1 := failover_one_request_eq_common cfg st0
    ⟨NODE_QUARANTINE_REQUEST, [x], flagsQ⟩ probeQ _ hkap1
  have hc1 := failover_common_quarantine_primary cfg
    ⟨NODE_QUARANTINE_REQUEST, [x], flagsQ⟩
    ⟨(st0.setStatus x CON_DOWN).setQuarantine x true, true, true, [x],
     true, false, false⟩ probeQ rfl
    (by show (((st0.setStatus x CON_DOWN).setQuarantine x true)).primary_node_id =
          fo_node_id ⟨NODE_QUARANTINE_REQUEST, [x], flagsQ⟩
        rw [primary_setQuarantine, primary_setStatus]
        exact hprim)
  rw [← heq1] at hc1
  have hklen : (((st0.setStatus x CON_DOWN).setQuarantine x true)).backends.length =
      st0.backends.length := by
    rw [length_setQuarantine, length_setStatus]
  have hlen1 : (failover_one_request cfg st0
      ⟨NODE_QUARANTINE_REQUEST, [x], flagsQ⟩ probeQ).1.backends.length =
      st0.backends.length := by
    rw [hc1.2.2]
    exact hklen
  have hgx1 : (failover_one_request cfg st0
      ⟨NODE_QUARANTINE_REQUEST, [x], flagsQ⟩ probeQ).1.getB x =
      ⟨CON_DOWN, true, ROLE_PRIMARY⟩ := by
    rw [hc1.2.1 x]
    show ((((st0.setStatus x CON_DOWN).setQuarantine x true).setRole
        (fo_node_id ⟨NODE_QUARANTINE_REQUEST, [x], flagsQ⟩)
        ROLE_PRIMARY)).getB x = ⟨CON_DOWN, true, ROLE_PRIMARY⟩
    rw [getB_setRole,
      if_pos ⟨rfl, hx0, by rw [hklen]; exact hxlen⟩,
      getB_setQuarantine,
      if_pos ⟨rfl, hx0, by rw [length_setStatus]; exact hxlen⟩,
      getB_setStatus, if_pos ⟨rfl, hx0, hxlen⟩]
  -- step 2: NODE_UP with the UPDATE flag on the quarantined former primary
  obtain ⟨kr2, hkap2, hsp2, hrf2, hpk2, hgk2, hlk2⟩ :=
    failover_apply_kind_node_up_update_qprimary cfg
      (failover_one_request cfg st0 ⟨NODE_QUARANTINE_REQUEST, [x], flagsQ⟩ probeQ).1
      x flagsU hx0 (by rw [hlen1]; exact hxlen) (by omega) hgx1 hc1.1 hupd
  have heq2 := failover_one_request_eq_common cfg
    (failover_one_request cfg st0 ⟨NODE_QUARANTINE_REQUEST, [x], flagsQ⟩ probeQ).1
    ⟨NODE_UP_REQUEST, [x], flagsU⟩ probeU kr2 hkap2
  have hc2 := failover_common_node_up_no_search cfg ⟨NODE_UP_REQUEST, [x], flagsU⟩
    kr2 probeU rfl hsp2
  rw [← heq2] at hc2
  refine ⟨hgx1, hc1.1, ?_, ?_, ?_, ?_, hc2.2.2.2⟩
  · rw [hc2.2.1 x, hgk2]
  · rw [hc2.2.1 x, hgk2]
  · rw [hc2.1, hpk2]
  · rw [hc2.2.2.1, hrf2]

/-- A one node state whose single backend is an UP primary. -/
def samplePrimaryOnlyState : PoolState :=
  { backends := [⟨CON_UP, false, ROLE_STANDBY⟩], main_node_id := 0,
    primary_node_id := 0 }

/-- Witness for C4: quarantine the single primary of a one node cluster, then
fail it back with the UPDATE flag. -/
theorem quarantine_then_update_failback_restores_primary_witness :
    (VALID_BACKEND samplePrimaryOnlyState 0 = true ∧
     samplePrimaryOnlyState.primary_node_id = 0 ∧
     (⟨false, false, true, false⟩ : RequestDetails).update = true) ∧
    (((failover_one_request ⟨ClusteringMode.stream, false, false⟩ samplePrimaryOnlyState
        ⟨NODE_QUARANTINE_REQUEST, [0], default⟩ 0).1.getB 0 =
      ⟨CON_DOWN, true, ROLE_PRIMARY⟩) ∧
     ((failover_one_request ⟨ClusteringMode.stream, false, false⟩ samplePrimaryOnlyState
        ⟨NODE_QUARANTINE_REQUEST, [0], default⟩ 0).1.primary_node_id = -1) ∧
     (((failover_one_request ⟨ClusteringMode.stream, false, false⟩
        (failover_one_request ⟨ClusteringMode.stream, false, false⟩ samplePrimaryOnlyState
          ⟨NODE_QUARANTINE_REQUEST, [0], default⟩ 0).1
        ⟨NODE_UP_REQUEST, [0], ⟨false, false, true, false⟩⟩ 0).1.getB 0).quarantine =
      false) ∧
     (((failover_one_request ⟨ClusteringMode.stream, false, false⟩
        (failover_one_request ⟨ClusteringMode.stream, false, false⟩ samplePrimaryOnlyState
          ⟨NODE_QUARANTINE_REQUEST, [0], default⟩ 0).1
        ⟨NODE_UP_REQUEST, [0], ⟨false, false, true, false⟩⟩ 0).1.getB 0).backend_status =
      CON_CONNECT_WAIT) ∧
     ((failover_one_request ⟨ClusteringMode.stream, false, false⟩
        (failover_one_request ⟨ClusteringMode.stream, false, false⟩ samplePrimaryOnlyState
          ⟨NODE_QUARANTINE_REQUEST, [0], default⟩ 0).1
        ⟨NODE_UP_REQUEST, [0], ⟨false, false, true, false⟩⟩ 0).1.primary_node_id = 0) ∧
     ((failover_one_request ⟨ClusteringMode.stream, false, false⟩
        (failover_one_request ⟨ClusteringMode.stream, false, false⟩ samplePrimaryOnlyState
          ⟨NODE_QUARANTINE_REQUEST, [0], default⟩ 0).1
        ⟨NODE_UP_REQUEST, [0], ⟨false, false, true, false⟩⟩ 0).2.ran_failback_command =
      false) ∧
     ((failover_one_request ⟨ClusteringMode.stream, false, false⟩
        (failover_one_request ⟨ClusteringMode.stream, false, false⟩ samplePrimaryOnlyState
          ⟨NODE_QUARANTINE_REQUEST, [0], default⟩ 0).1
        ⟨NODE_UP_REQUEST, [0], ⟨false, false, true, false⟩⟩ 0).2.invoked_find_primary =
      false)) :=
  ⟨⟨by decide, rfl, rfl⟩,
   quarantine_then_update_failback_restores_primary
     ⟨ClusteringMode.stream, false, false⟩ samplePrimaryOnlyState 0 default
     ⟨false, false, true, false⟩ 0 0 rfl (by decide) (by decide) (by decide)
     (by decide) rfl rfl⟩

end PgpoolMain
